import Mathlib


/-!
Verification of the godot-vodozemac binding layer.

The repository under verification is a Godot binding around the vodozemac
cryptographic engine.  The four wrapper classes (VodozemacAccount,
VodozemacSession, VodozemacGroupSession, VodozemacInboundGroupSession) are
embedded here directly from the C++ sources.  The engine itself (the olm and
megolm Rust modules) is not part of the repository sources, so its behaviour
is modelled from the specification; every such definition carries a doc
comment starting with "Modelled from the spec:".

Conventions of the embedding:
- godot PackedByteArray values are List Nat (one entry per byte);
- godot String values are Lean String, except that opaque pickle blobs are
  modelled by the PickleBlob type (an honest symbolic model of an encrypted,
  authenticated, typed serialization, with a raw constructor for arbitrary
  non-pickle text such as the empty string returned on failure);
- pairwise-message ciphertext envelopes are bitstrings (List Bool) so that
  bit-level tampering can be stated;
- godot Dictionary values are association lists from String to a variant
  type, built in the order the C++ code fills them;
- each C++ method becomes a pure function from the wrapper state to the pair
  of the updated wrapper state and the returned value.
-/

/-- Modelled from the spec: error kinds of the missing cryptographic core
(spec section 7).  The C++ wrapper observes a core failure only through the
exception message, so each kind carries a fixed human-readable message. -/

inductive CoreErr
  | invalidArgument
  | invalidKey
  | unknownOneTimeKey
  | authenticationFailure
  | messageTooOld
  | indexOutOfRange
  | decryptionFailure
  | unsupportedVersion
  | typeMismatch
  deriving DecidableEq, Repr

/-- Modelled from the spec: the human-readable message of a core error, as
surfaced by the what() of the exception the cxx bridge throws. -/

def CoreErr.msg : CoreErr → String
  | .invalidArgument => "InvalidArgument: count must be positive"
  | .invalidKey => "InvalidKey: base64 or point validation failed"
  | .unknownOneTimeKey => "UnknownOneTimeKey: no matching one-time key"
  | .authenticationFailure => "AuthenticationFailure: MAC verification failed"
  | .messageTooOld => "MessageTooOld: index before first known index"
  | .indexOutOfRange => "IndexOutOfRange: index before first known index"
  | .decryptionFailure => "DecryptionFailure: pickle did not decrypt"
  | .unsupportedVersion => "UnsupportedVersion: unknown pickle version"
  | .typeMismatch => "TypeMismatch: pickle holds a different entity"

/-! ### A total injective codec between strings and naturals.

Plaintext crosses the wrapper boundary as a String but travels inside a
bit-level ciphertext envelope, so the model needs a computable encoding of
strings into numbers together with a decoder that inverts it. -/

def charBase : Nat := 1114113

def encodeChars (l : List Char) : Nat :=
  l.foldl (fun a c => a * charBase + (c.toNat + 1)) 0

def decodeCharsAux : Nat → Nat → List Char
  | 0, _ => []
  | fuel + 1, n =>
    if n = 0 then []
    else decodeCharsAux fuel (n / charBase) ++ [Char.ofNat (n % charBase - 1)]

def strToNat (s : String) : Nat := encodeChars s.data

def natToStr (n : Nat) : String := String.mk (decodeCharsAux n n)

/-! ### Bit-level envelope codec for pairwise messages.

Modelled from the spec: a pairwise ciphertext envelope is a self-describing
authenticated blob (message key material, chain index, payload, integrity
tag).  The integrity tag of the AEAD construction is modelled by a parity
bit over the serialized body, which makes every single-bit modification
detectable, matching the tamper-rejection contract of spec sections 4.2
and 8. -/

def natBits (n : Nat) : List Bool := List.replicate n true ++ [false]

def parseNat : List Bool → Option (Nat × List Bool)
  | [] => none
  | false :: rest => some (0, rest)
  | true :: rest =>
    match parseNat rest with
    | some (n, r) => some (n + 1, r)
    | none => none

def xorAll (l : List Bool) : Bool := l.foldr xor false

def flipBit (i : Nat) (l : List Bool) : List Bool := l.set i (!(l.getD i false))

/-! ### The cryptographic core, modelled from the spec.

The olm and megolm modules the wrapper calls live in the external vodozemac
crate, not in the repository sources, so every definition in this section is
modelled from the specification (sections 3 and 4). -/

/-- Modelled from the spec: the one-way chain-key derivation (HKDF/HMAC-style
ratchet of spec section 3); symbolically the successor function, which is
injective and never rewinds. -/

def kdf (k : Nat) : Nat := k + 1

/-- Modelled from the spec: a one-time curve25519 key pair tagged with a
monotonically increasing key id and a published flag (spec section 3,
OneTimeKey). -/

structure OneTimeKey where
  keyId : Nat
  pub : Nat
  published : Bool
  deriving DecidableEq, Repr

/-- Modelled from the spec: the olm Account state: identity key pair halves,
the one-time-key pool, the next key id, and a deterministic entropy counter
standing in for the system RNG (spec section 4.1). -/

structure OlmAccount where
  edKey : Nat
  curveKey : Nat
  pool : List OneTimeKey
  nextId : Nat
  rng : Nat
  deriving DecidableEq, Repr

/-- Modelled from the spec: olm new_account, a fresh identity key pair and an
empty pool; never fails (spec section 4.1, create). -/

def newAccount (seed : Nat) : OlmAccount :=
  { edKey := seed, curveKey := seed + 1, pool := [], nextId := 0, rng := seed + 2 }

/-- Modelled from the spec: base64 of the ed25519 identity public key. -/

def edKeyB64 (a : OlmAccount) : String := "ed25519:" ++ Nat.repr a.edKey

/-- Modelled from the spec: base64 of the curve25519 identity public key. -/

def curveKeyB64 (a : OlmAccount) : String := "curve25519:" ++ Nat.repr a.curveKey

/-- Modelled from the spec: the freshly generated one-time keys appended by a
successful generate_one_time_keys call: ids continue from nextId, key
material comes from the entropy counter, all start unpublished. -/

def genKeys (firstId rng n : Nat) : List OneTimeKey :=
  (List.range n).map fun j => { keyId := firstId + j, pub := rng + j, published := false }

/-- Modelled from the spec: olm Account generate_one_time_keys appends count
fresh unpublished keys with strictly increasing ids and fails with
InvalidArgument when count is not positive (spec section 4.1). -/

def coreGenerateOneTimeKeys (a : OlmAccount) (count : Int) : Except CoreErr OlmAccount :=
  if count ≤ 0 then .error .invalidArgument
  else .ok { a with
    pool := a.pool ++ genKeys a.nextId a.rng count.toNat
    nextId := a.nextId + count.toNat
    rng := a.rng + count.toNat }

/-- Modelled from the spec: olm Account one_time_keys, the snapshot of key id
and public key for every unpublished key in the pool (spec section 4.1). -/

def coreOneTimeKeys (a : OlmAccount) : List (Nat × Nat) :=
  (a.pool.filter fun k => !k.published).map fun k => (k.keyId, k.pub)

/-- Modelled from the spec: olm Account mark_keys_as_published moves every
key out of the unpublished set (spec section 4.1). -/

def coreMarkPublished (a : OlmAccount) : OlmAccount :=
  { a with pool := a.pool.map fun k => { k with published := true } }

/-- Modelled from the spec: the protocol-fixed upper bound on outstanding
one-time keys (spec section 4.1, a policy constant). -/

def coreMaxOneTimeKeys : Nat := 50

/-- Modelled from the spec: base64 and point validation of a curve25519
public key: unpadded base64 of 32 bytes is 43 characters over the canonical
alphabet (spec sections 4.1 and 6). -/

def validCurveKey (s : String) : Bool :=
  s.length == 43 && s.data.all fun c => c.isAlphanum || c == '+' || c == '/'

/-- Modelled from the spec: a numeric digest of a base64 key string, standing
in for the decoded curve25519 point. -/

def keyDigest (s : String) : Nat := s.data.foldl (fun a c => a + c.toNat) s.length

/-- Modelled from the spec: types curve_key_from_base64, which throws
InvalidKey when the string fails base64 or point validation. -/

def curveKeyFromB64 (s : String) : Except CoreErr Nat :=
  if validCurveKey s then .ok (keyDigest s) else .error .invalidKey

/-- Modelled from the spec: the olm pairwise double-ratchet session state:
session id, sending chain (key and index) and receiving chain (key and
index) (spec sections 3 and 4.2). -/

structure OlmSession where
  sid : Nat
  sendKey : Nat
  sendIdx : Nat
  recvKey : Nat
  recvIdx : Nat
  deriving DecidableEq, Repr

/-- Modelled from the spec: the base64 session id fingerprint. -/

def sessionIdB64 (s : OlmSession) : String := "olm-session:" ++ Nat.repr s.sid

/-- Modelled from the spec: serialize a message key, a chain index and a
payload into an authenticated envelope; the head bit is the integrity tag
(parity of the body). -/

def mkEnvelope (k i pn : Nat) : List Bool :=
  let raw := natBits k ++ natBits i ++ natBits pn
  xorAll raw :: raw

/-- Modelled from the spec: parse the body of an envelope into message key,
chain index and numeric payload; the trailing bits must be exactly consumed. -/

def parseEnvelope (raw : List Bool) : Option (Nat × Nat × Nat) :=
  match parseNat raw with
  | none => none
  | some (k, r1) =>
    match parseNat r1 with
    | none => none
    | some (i, r2) =>
      match parseNat r2 with
      | none => none
      | some (pn, r3) => if r3 = [] then some (k, i, pn) else none

/-- Modelled from the spec: olm Session encrypt derives the next message key
from the sending chain, builds an authenticated envelope tagged with the
normal message type, and advances the sending chain (spec section 4.2). -/

def coreSessionEncrypt (s : OlmSession) (p : String) : (Int × List Bool) × OlmSession :=
  ((1, mkEnvelope s.sendKey s.sendIdx (strToNat p)),
   { s with sendKey := kdf s.sendKey, sendIdx := s.sendIdx + 1 })

/-- Modelled from the spec: olm Session decrypt verifies the integrity tag
and the chain position, and only then returns the plaintext and the advanced
receiving chain; any verification failure is an AuthenticationFailure and
leaves no trace in the returned state (spec section 4.2).  A message type
other than the pre-key and normal tags is rejected by the message parser. -/

def coreSessionDecrypt (s : OlmSession) (mt : Int) (c : List Bool) :
    Except CoreErr (String × OlmSession) :=
  if mt = 0 ∨ mt = 1 then
    match c with
    | [] => .error .authenticationFailure
    | b :: raw =>
      if xorAll raw = b then
        match parseEnvelope raw with
        | none => .error .authenticationFailure
        | some (k, i, pn) =>
          if k = s.recvKey ∧ i = s.recvIdx then
            .ok (natToStr pn, { s with recvKey := kdf s.recvKey, recvIdx := s.recvIdx + 1 })
          else .error .authenticationFailure
      else .error .authenticationFailure
  else .error .invalidArgument

/-- Modelled from the spec: olm Session session_matches, the read-only check
whether an inbound pre-key envelope corresponds to this session (spec
section 4.2). -/

def coreSessionMatches (s : OlmSession) (mt : Int) (c : List Bool) : Bool :=
  match mt, c with
  | 0, b :: raw =>
    if xorAll raw = b then
      match parseEnvelope raw with
      | some (k, _, _) => k == s.recvKey
      | none => false
    else false
  | _, _ => false

/-- Modelled from the spec: olm Account create_outbound_session performs the
key agreement from the account identity key, a fresh ephemeral key and the
two peer keys and returns an established session (spec section 4.1). -/

def coreCreateOutbound (a : OlmAccount) (ik otk seed : Nat) : OlmSession :=
  { sid := a.curveKey + ik + otk + seed
    sendKey := a.curveKey + ik + otk + seed + 1
    sendIdx := 0
    recvKey := a.curveKey + ik + otk + seed + 2
    recvIdx := 0 }

/-- Modelled from the spec: olm Account create_inbound_session parses the
pre-key envelope, consumes the referenced one-time key (UnknownOneTimeKey if
it is absent from the pool), performs the mirrored key agreement and
decrypts the first message in the same call (spec section 4.1). -/

def coreCreateInbound (a : OlmAccount) (ik : Nat) (mt : Int) (c : List Bool) :
    Except CoreErr (OlmAccount × OlmSession × String) :=
  if mt = 0 then
    match c with
    | [] => .error .authenticationFailure
    | b :: raw =>
      if xorAll raw = b then
        match parseEnvelope raw with
        | none => .error .authenticationFailure
        | some (kid, i, pn) =>
          if (a.pool.filter fun k => k.keyId == kid) = [] then .error .unknownOneTimeKey
          else
            .ok ({ a with pool := a.pool.filter fun k => !(k.keyId == kid) },
                 { sid := ik + kid + i, sendKey := ik + kid + i + 2, sendIdx := 0,
                   recvKey := ik + kid + i + 1, recvIdx := 1 },
                 natToStr pn)
      else .error .authenticationFailure
  else .error .invalidArgument

/-- Modelled from the spec: the megolm outbound group session state: a single
forward-only chain (key and index) plus a per-session ed25519 signing key
(spec sections 3 and 4.3). -/

structure GroupSession where
  chainKey : Nat
  idx : Nat
  signKey : Nat
  deriving DecidableEq, Repr

/-- Modelled from the spec: megolm new_group_session, a fresh chain key at
index 0 with a fresh signing key pair; never fails (spec section 4.3). -/

def newGroupSession (seed : Nat) : GroupSession :=
  { chainKey := seed, idx := 0, signKey := seed + 1 }

/-- Modelled from the spec: the base64 group session id derived from the
signing public key. -/

def groupSessionIdB64 (g : GroupSession) : String :=
  "megolm-session:" ++ Nat.repr g.signKey

/-- Modelled from the spec: the base64 group message envelope: signature,
index, ciphertext and MAC in one self-describing blob (spec section 6). -/

def groupCiphertext (g : GroupSession) (p : String) : String :=
  "gmsg:" ++ Nat.repr g.signKey ++ ":" ++ Nat.repr g.chainKey ++ ":" ++
    Nat.repr g.idx ++ ":" ++ Nat.repr (strToNat p)

/-- Modelled from the spec: megolm GroupSession encrypt derives the message
key at the current index, encrypts and signs, and advances the index by one
(spec section 4.3). -/

def coreGroupEncrypt (g : GroupSession) (p : String) : String × GroupSession :=
  (groupCiphertext g p, { g with chainKey := kdf g.chainKey, idx := g.idx + 1 })

/-- Modelled from the spec: megolm GroupSession session_key exports the
current chain key, index and signing public key as distributable base64
material (spec sections 3 and 4.3). -/

def coreGroupSessionKey (g : GroupSession) : String :=
  "sk:" ++ Nat.repr g.chainKey ++ ":" ++ Nat.repr g.idx ++ ":" ++ Nat.repr g.signKey

/-- Modelled from the spec: the megolm inbound group session state: the chain
key anchored at the first known index, the current chain position, and the
originating signing public key (spec sections 3 and 4.4). -/

structure InboundGroupSession where
  chainKey : Nat
  curIdx : Nat
  firstKnown : Nat
  signPub : Nat
  deriving DecidableEq, Repr

/-- Modelled from the spec: the base64 inbound group session id. -/

def inboundSessionIdB64 (s : InboundGroupSession) : String :=
  "megolm-session:" ++ Nat.repr s.signPub

/-- Modelled from the spec: a parsed session-key export: chain key, index and
signing public key (spec section 3, SessionKeyExport). -/

structure SessionKeyExport where
  chainKey : Nat
  idx : Nat
  signPub : Nat
  deriving DecidableEq, Repr

/-- Modelled from the spec: megolm session_key_from_base64; throws InvalidKey
on malformed input (spec section 4.4). -/

def sessionKeyFromB64 (s : String) : Except CoreErr SessionKeyExport :=
  match s.splitOn ":" with
  | ["sk", ks, is, ss] =>
    match ks.toNat?, is.toNat?, ss.toNat? with
    | some k, some i, some sp => .ok { chainKey := k, idx := i, signPub := sp }
    | _, _, _ => .error .invalidKey
  | _ => .error .invalidKey

/-- Modelled from the spec: megolm exported_session_key_from_base64, the
alternate seeding blob produced by export_at (spec section 4.4). -/

def exportedSessionKeyFromB64 (s : String) : Except CoreErr SessionKeyExport :=
  match s.splitOn ":" with
  | ["ek", ks, is, ss] =>
    match ks.toNat?, is.toNat?, ss.toNat? with
    | some k, some i, some sp => .ok { chainKey := k, idx := i, signPub := sp }
    | _, _, _ => .error .invalidKey
  | _ => .error .invalidKey

/-- Modelled from the spec: megolm new_inbound_group_session seeds an inbound
chain at the exported index (spec section 4.4). -/

def newInboundGroupSession (e : SessionKeyExport) : InboundGroupSession :=
  { chainKey := e.chainKey, curIdx := e.idx, firstKnown := e.idx, signPub := e.signPub }

/-- Modelled from the spec: megolm import_inbound_group_session, identical
seeding from an exported key; indices before the seed can never be derived
(spec section 4.4). -/

def importInboundGroupSession (e : SessionKeyExport) : InboundGroupSession :=
  { chainKey := e.chainKey, curIdx := e.idx, firstKnown := e.idx, signPub := e.signPub }

/-- Modelled from the spec: the chain key of an inbound session at a given
index at or after its first known index, derived one-way from the anchored
key. -/

def inboundKeyAt (s : InboundGroupSession) (i : Nat) : Nat :=
  Nat.iterate kdf (i - s.firstKnown) s.chainKey

/-- Modelled from the spec: megolm InboundGroupSession decrypt parses the
index from the envelope, rejects indices before the first known index with
MessageTooOld, verifies signature and MAC, and returns plaintext and index
while the chain position only ever advances (spec section 4.4). -/

def coreInboundDecrypt (s : InboundGroupSession) (c : String) :
    Except CoreErr (String × Nat × InboundGroupSession) :=
  match c.splitOn ":" with
  | ["gmsg", ss, ks, is, ps] =>
    match ss.toNat?, ks.toNat?, is.toNat?, ps.toNat? with
    | some sg, some k, some i, some pn =>
      if sg ≠ s.signPub then .error .authenticationFailure
      else if i < s.firstKnown then .error .messageTooOld
      else if k ≠ inboundKeyAt s i then .error .authenticationFailure
      else .ok (natToStr pn, i, { s with curIdx := max s.curIdx (i + 1) })
    | _, _, _, _ => .error .authenticationFailure
  | _ => .error .authenticationFailure

/-- Modelled from the spec: megolm InboundGroupSession export_at reproduces
the key material anchored at the requested index, failing when the index is
below the first known index (spec section 4.4). -/

def coreInboundExportAt (s : InboundGroupSession) (i : Nat) : Except CoreErr String :=
  if i < s.firstKnown then .error .indexOutOfRange
  else .ok ("ek:" ++ Nat.repr (inboundKeyAt s i) ++ ":" ++ Nat.repr i ++ ":" ++
    Nat.repr s.signPub)

/-! ### Pickles, modelled from the spec.

A pickle is an opaque versioned string holding the encrypted, authenticated
serialization of an entity under a caller-owned 32-byte key (spec sections
3 and 4.5).  The blob is modelled symbolically: a typed constructor carrying
the serialized state and the key it was encrypted under (perfect
encryption), plus a raw constructor for arbitrary non-pickle text. -/

inductive PickleBlob
  | acc (a : OlmAccount) (k : List Nat)
  | sess (s : OlmSession) (k : List Nat)
  | grp (g : GroupSession) (k : List Nat)
  | inb (s : InboundGroupSession) (k : List Nat)
  | raw (s : String)
  deriving DecidableEq, Repr

/-- Modelled from the spec: olm Account pickle under a 32-byte key. -/

def coreAccountPickle (a : OlmAccount) (k : List Nat) : PickleBlob := .acc a k

/-- Modelled from the spec: olm account_from_pickle; DecryptionFailure on a
wrong key or a non-pickle blob, TypeMismatch when the blob holds a different
entity type (spec section 4.5). -/

def coreAccountFromPickle (b : PickleBlob) (k : List Nat) : Except CoreErr OlmAccount :=
  match b with
  | .acc a k2 => if k2 = k then .ok a else .error .decryptionFailure
  | .raw _ => .error .decryptionFailure
  | _ => .error .typeMismatch

/-- Modelled from the spec: olm Session pickle under a 32-byte key. -/

def coreSessionPickle (s : OlmSession) (k : List Nat) : PickleBlob := .sess s k

/-- Modelled from the spec: olm session_from_pickle (spec section 4.5). -/

def coreSessionFromPickle (b : PickleBlob) (k : List Nat) : Except CoreErr OlmSession :=
  match b with
  | .sess s k2 => if k2 = k then .ok s else .error .decryptionFailure
  | .raw _ => .error .decryptionFailure
  | _ => .error .typeMismatch

/-- Modelled from the spec: megolm GroupSession pickle under a 32-byte key. -/

def coreGroupPickle (g : GroupSession) (k : List Nat) : PickleBlob := .grp g k

/-- Modelled from the spec: megolm group_session_from_pickle (spec 4.5). -/

def coreGroupFromPickle (b : PickleBlob) (k : List Nat) : Except CoreErr GroupSession :=
  match b with
  | .grp g k2 => if k2 = k then .ok g else .error .decryptionFailure
  | .raw _ => .error .decryptionFailure
  | _ => .error .typeMismatch

/-- Modelled from the spec: megolm InboundGroupSession pickle. -/

def coreInboundPickle (s : InboundGroupSession) (k : List Nat) : PickleBlob := .inb s k

/-- Modelled from the spec: megolm inbound_group_session_from_pickle (spec
section 4.5). -/

def coreInboundFromPickle (b : PickleBlob) (k : List Nat) :
    Except CoreErr InboundGroupSession :=
  match b with
  | .inb s k2 => if k2 = k then .ok s else .error .decryptionFailure
  | .raw _ => .error .decryptionFailure
  | _ => .error .typeMismatch

/-! ### Godot-side value types.

These mirror the host types crossing the binding boundary: godot Error,
Variant and Dictionary. -/

/-- The godot Error return type as used by the wrapper: OK or FAILED. -/

inductive GError
  | ok
  | failed
  deriving DecidableEq, Repr

/-- The VodozemacSession wrapper object: a nullable owning pointer to the
boxed core session plus the mutable last-error string
(src/vodozemac_session.cpp, constructor at line 28). -/

structure VodozemacSession where
  session : Option OlmSession
  last_error : String
  deriving DecidableEq, Repr

/-- The godot Variant values stored in the dictionaries the wrapper builds. -/

inductive GVal
  | vstr (s : String)
  | vint (n : Int)
  | vbool (b : Bool)
  | vbits (c : List Bool)
  | vsession (s : VodozemacSession)
  deriving DecidableEq, Repr

/-- A godot Dictionary, as the association list the wrapper fills in program
order. -/

def Dict := List (String × GVal)

instance : DecidableEq Dict := by
  unfold Dict
  infer_instance

/-- Lookup of a Dictionary key. -/

def dictGet : Dict → String → Option GVal
  | [], _ => none
  | (k, v) :: t, q => if k = q then some v else dictGet t q

/-- The VodozemacAccount wrapper object: a nullable owning pointer to the
boxed core account plus the mutable last-error string
(src/vodozemac_account.cpp, constructor at line 33). -/

structure VodozemacAccount where
  account : Option OlmAccount
  last_error : String
  deriving DecidableEq, Repr

/-- The VodozemacGroupSession wrapper object
(src/vodozemac_group_session.cpp, constructor at line 25). -/

structure VodozemacGroupSession where
  session : Option GroupSession
  last_error : String
  deriving DecidableEq, Repr

/-- The VodozemacInboundGroupSession wrapper object
(src/vodozemac_inbound_group_session.cpp, constructor at line 30). -/

structure VodozemacInboundGroupSession where
  session : Option InboundGroupSession
  last_error : String
  deriving DecidableEq, Repr

/-! ### VodozemacAccount methods (src/vodozemac_account.cpp). -/

/-- VodozemacAccount::initialize (lines 43 to 55): replaces any existing core
account by a fresh one; the seed stands for the entropy the core draws. -/

def VodozemacAccount.initialize (A : VodozemacAccount) (seed : Nat) :
    VodozemacAccount × GError :=
  (⟨some (newAccount seed), ""⟩, .ok)

/-- VodozemacAccount::get_identity_keys (lines 57 to 79): an empty dictionary
when uninitialized, otherwise the two base64 public identity keys. -/

def VodozemacAccount.get_identity_keys (A : VodozemacAccount) :
    VodozemacAccount × Dict :=
  match A.account with
  | none => ({ A with last_error := "Account not initialized" }, [])
  | some a =>
    (⟨some a, ""⟩,
     [("ed25519", .vstr (edKeyB64 a)), ("curve25519", .vstr (curveKeyB64 a))])

/-- VodozemacAccount::generate_one_time_keys (lines 81 to 95). -/

def VodozemacAccount.generate_one_time_keys (A : VodozemacAccount) (count : Int) :
    VodozemacAccount × GError :=
  match A.account with
  | none => ({ A with last_error := "Account not initialized" }, .failed)
  | some a =>
    match coreGenerateOneTimeKeys a count with
    | .ok a2 => (⟨some a2, ""⟩, .ok)
    | .error e => ({ A with last_error := e.msg }, .failed)

/-- VodozemacAccount::get_one_time_keys (lines 97 to 117): a dictionary from
key id to base64 public key over the unpublished pool. -/

def VodozemacAccount.get_one_time_keys (A : VodozemacAccount) :
    VodozemacAccount × Dict :=
  match A.account with
  | none => ({ A with last_error := "Account not initialized" }, [])
  | some a =>
    (⟨some a, ""⟩,
     (coreOneTimeKeys a).map fun kv => (Nat.repr kv.1, .vstr ("curve25519:" ++ Nat.repr kv.2)))

/-- VodozemacAccount::mark_keys_as_published (lines 119 to 131): void
return. -/

def VodozemacAccount.mark_keys_as_published (A : VodozemacAccount) : VodozemacAccount :=
  match A.account with
  | none => { A with last_error := "Account not initialized" }
  | some a => ⟨some (coreMarkPublished a), ""⟩

/-- VodozemacAccount::get_max_number_of_one_time_keys (lines 133 to 146):
returns 0 when uninitialized. -/

def VodozemacAccount.get_max_number_of_one_time_keys (A : VodozemacAccount) :
    VodozemacAccount × Int :=
  match A.account with
  | none => ({ A with last_error := "Account not initialized" }, 0)
  | some a => (⟨some a, ""⟩, (coreMaxOneTimeKeys : Int))

/-- VodozemacAccount::pickle (lines 149 to 175): empty string when
uninitialized or when the key is not exactly 32 bytes, otherwise the core
pickle blob. -/

def VodozemacAccount.pickle (A : VodozemacAccount) (key : List Nat) :
    VodozemacAccount × PickleBlob :=
  match A.account with
  | none => ({ A with last_error := "Account not initialized" }, .raw "")
  | some a =>
    if key.length ≠ 32 then
      ({ A with last_error := "Key must be exactly 32 bytes" }, .raw "")
    else (⟨some a, ""⟩, coreAccountPickle a key)

/-- VodozemacAccount::from_pickle (lines 177 to 208): the key-length check
precedes everything; on a core failure the previously held account is
deleted and the pointer set to null, so the entity ends uninitialized. -/

def VodozemacAccount.from_pickle (A : VodozemacAccount) (b : PickleBlob)
    (key : List Nat) : VodozemacAccount × GError :=
  if key.length ≠ 32 then
    ({ A with last_error := "Key must be exactly 32 bytes" }, .failed)
  else
    match coreAccountFromPickle b key with
    | .ok a => (⟨some a, ""⟩, .ok)
    | .error e => (⟨none, e.msg⟩, .failed)

/-- VodozemacAccount::get_last_error (lines 210 to 212): const accessor. -/

def VodozemacAccount.get_last_error (A : VodozemacAccount) : String := A.last_error

/-- VodozemacAccount::create_outbound_session (lines 215 to 250): returns a
freshly instantiated session ref which stays uninitialized on any failure;
the account itself is not mutated by the core call. -/

def VodozemacAccount.create_outbound_session (A : VodozemacAccount)
    (ik otk : String) (seed : Nat) : VodozemacAccount × VodozemacSession :=
  match A.account with
  | none => ({ A with last_error := "Account not initialized" }, ⟨none, ""⟩)
  | some a =>
    match curveKeyFromB64 ik with
    | .error e => ({ A with last_error := e.msg }, ⟨none, ""⟩)
    | .ok ikN =>
      match curveKeyFromB64 otk with
      | .error e => ({ A with last_error := e.msg }, ⟨none, ""⟩)
      | .ok otkN => (⟨some a, ""⟩, ⟨some (coreCreateOutbound a ikN otkN seed), ""⟩)

/-- VodozemacAccount::create_inbound_session (lines 252 to 304): the result
dictionary starts as success false, an empty session ref and empty
plaintext; on success those three entries are overwritten, on failure an
error entry is appended. -/

def VodozemacAccount.create_inbound_session (A : VodozemacAccount)
    (ik : String) (mt : Int) (c : List Bool) : VodozemacAccount × Dict :=
  match A.account with
  | none =>
    ({ A with last_error := "Account not initialized" },
     [("success", .vbool false), ("session", .vsession ⟨none, ""⟩),
      ("plaintext", .vstr ""), ("error", .vstr "Account not initialized")])
  | some a =>
    match curveKeyFromB64 ik with
    | .error e =>
      ({ A with last_error := e.msg },
       [("success", .vbool false), ("session", .vsession ⟨none, ""⟩),
        ("plaintext", .vstr ""), ("error", .vstr e.msg)])
    | .ok ikN =>
      match coreCreateInbound a ikN mt c with
      | .ok (a2, s, p) =>
        (⟨some a2, ""⟩,
         [("success", .vbool true), ("session", .vsession ⟨some s, ""⟩),
          ("plaintext", .vstr p)])
      | .error e =>
        ({ A with last_error := e.msg },
         [("success", .vbool false), ("session", .vsession ⟨none, ""⟩),
          ("plaintext", .vstr ""), ("error", .vstr e.msg)])

/-! ### VodozemacSession methods (src/vodozemac_session.cpp). -/

/-- VodozemacSession::get_session_id (lines 38 to 53). -/

def VodozemacSession.get_session_id (S : VodozemacSession) : VodozemacSession × String :=
  match S.session with
  | none => ({ S with last_error := "Session not initialized" }, "")
  | some s => (⟨some s, ""⟩, sessionIdB64 s)

/-- VodozemacSession::session_matches (lines 55 to 77). -/

def VodozemacSession.session_matches (S : VodozemacSession) (mt : Int) (c : List Bool) :
    VodozemacSession × Bool :=
  match S.session with
  | none => ({ S with last_error := "Session not initialized" }, false)
  | some s => (⟨some s, ""⟩, coreSessionMatches s mt c)

/-- VodozemacSession::encrypt (lines 79 to 111): the dictionary starts with
success false; on success it carries message type and ciphertext. -/

def VodozemacSession.encrypt (S : VodozemacSession) (p : String) :
    VodozemacSession × Dict :=
  match S.session with
  | none =>
    ({ S with last_error := "Session not initialized" },
     [("success", .vbool false), ("error", .vstr "Session not initialized")])
  | some s =>
    let r := coreSessionEncrypt s p
    (⟨some r.2, ""⟩,
     [("success", .vbool true), ("message_type", .vint r.1.1), ("ciphertext", .vbits r.1.2)])

/-- VodozemacSession::decrypt (lines 113 to 146): on a core failure the
session pointer is left untouched and only the last error and the returned
dictionary record the failure. -/

def VodozemacSession.decrypt (S : VodozemacSession) (mt : Int) (c : List Bool) :
    VodozemacSession × Dict :=
  match S.session with
  | none =>
    ({ S with last_error := "Session not initialized" },
     [("success", .vbool false), ("error", .vstr "Session not initialized")])
  | some s =>
    match coreSessionDecrypt s mt c with
    | .ok (p, s2) =>
      (⟨some s2, ""⟩, [("success", .vbool true), ("plaintext", .vstr p)])
    | .error e =>
      ({ S with last_error := e.msg },
       [("success", .vbool false), ("error", .vstr e.msg)])

/-- VodozemacSession::pickle (lines 148 to 174). -/

def VodozemacSession.pickle (S : VodozemacSession) (key : List Nat) :
    VodozemacSession × PickleBlob :=
  match S.session with
  | none => ({ S with last_error := "Session not initialized" }, .raw "")
  | some s =>
    if key.length ≠ 32 then
      ({ S with last_error := "Key must be exactly 32 bytes" }, .raw "")
    else (⟨some s, ""⟩, coreSessionPickle s key)

/-- VodozemacSession::from_pickle (lines 176 to 207): key-length check first;
on a core failure the held session is deleted and nulled. -/

def VodozemacSession.from_pickle (S : VodozemacSession) (b : PickleBlob)
    (key : List Nat) : VodozemacSession × GError :=
  if key.length ≠ 32 then
    ({ S with last_error := "Key must be exactly 32 bytes" }, .failed)
  else
    match coreSessionFromPickle b key with
    | .ok s => (⟨some s, ""⟩, .ok)
    | .error e => (⟨none, e.msg⟩, .failed)

/-- VodozemacSession::get_last_error (lines 209 to 211). -/

def VodozemacSession.get_last_error (S : VodozemacSession) : String := S.last_error

/-! ### VodozemacGroupSession methods (src/vodozemac_group_session.cpp). -/

/-- VodozemacGroupSession::initialize (lines 35 to 51). -/

def VodozemacGroupSession.initialize (G : VodozemacGroupSession) (seed : Nat) :
    VodozemacGroupSession × GError :=
  (⟨some (newGroupSession seed), ""⟩, .ok)

/-- VodozemacGroupSession::get_session_id (lines 53 to 68). -/

def VodozemacGroupSession.get_session_id (G : VodozemacGroupSession) :
    VodozemacGroupSession × String :=
  match G.session with
  | none => ({ G with last_error := "Group session not initialized" }, "")
  | some g => (⟨some g, ""⟩, groupSessionIdB64 g)

/-- VodozemacGroupSession::encrypt (lines 70 to 102). -/

def VodozemacGroupSession.encrypt (G : VodozemacGroupSession) (p : String) :
    VodozemacGroupSession × Dict :=
  match G.session with
  | none =>
    ({ G with last_error := "Group session not initialized" },
     [("success", .vbool false), ("error", .vstr "Group session not initialized")])
  | some g =>
    let r := coreGroupEncrypt g p
    (⟨some r.2, ""⟩, [("success", .vbool true), ("ciphertext", .vstr r.1)])

/-- VodozemacGroupSession::get_session_key (lines 104 to 120). -/

def VodozemacGroupSession.get_session_key (G : VodozemacGroupSession) :
    VodozemacGroupSession × String :=
  match G.session with
  | none => ({ G with last_error := "Group session not initialized" }, "")
  | some g => (⟨some g, ""⟩, coreGroupSessionKey g)

/-- VodozemacGroupSession::get_message_index (lines 122 to 136): minus one
when uninitialized. -/

def VodozemacGroupSession.get_message_index (G : VodozemacGroupSession) :
    VodozemacGroupSession × Int :=
  match G.session with
  | none => ({ G with last_error := "Group session not initialized" }, -1)
  | some g => (⟨some g, ""⟩, (g.idx : Int))

/-- VodozemacGroupSession::pickle (lines 138 to 164). -/

def VodozemacGroupSession.pickle (G : VodozemacGroupSession) (key : List Nat) :
    VodozemacGroupSession × PickleBlob :=
  match G.session with
  | none => ({ G with last_error := "Group session not initialized" }, .raw "")
  | some g =>
    if key.length ≠ 32 then
      ({ G with last_error := "Key must be exactly 32 bytes" }, .raw "")
    else (⟨some g, ""⟩, coreGroupPickle g key)

/-- VodozemacGroupSession::from_pickle (lines 166 to 197): key-length check
first; on a core failure the held session is deleted and nulled. -/

def VodozemacGroupSession.from_pickle (G : VodozemacGroupSession) (b : PickleBlob)
    (key : List Nat) : VodozemacGroupSession × GError :=
  if key.length ≠ 32 then
    ({ G with last_error := "Key must be exactly 32 bytes" }, .failed)
  else
    match coreGroupFromPickle b key with
    | .ok g => (⟨some g, ""⟩, .ok)
    | .error e => (⟨none, e.msg⟩, .failed)

/-- VodozemacGroupSession::get_last_error (lines 199 to 201). -/

def VodozemacGroupSession.get_last_error (G : VodozemacGroupSession) : String :=
  G.last_error

/-! ### VodozemacInboundGroupSession methods
(src/vodozemac_inbound_group_session.cpp). -/

/-- VodozemacInboundGroupSession::initialize_from_session_key (lines 40 to
65): parse failure or core failure deletes and nulls the held session. -/

def VodozemacInboundGroupSession.initialize_from_session_key
    (S : VodozemacInboundGroupSession) (sk : String) :
    VodozemacInboundGroupSession × GError :=
  match sessionKeyFromB64 sk with
  | .ok e => (⟨some (newInboundGroupSession e), ""⟩, .ok)
  | .error e => (⟨none, e.msg⟩, .failed)

/-- VodozemacInboundGroupSession::import_session (lines 67 to 92). -/

def VodozemacInboundGroupSession.import_session
    (S : VodozemacInboundGroupSession) (ek : String) :
    VodozemacInboundGroupSession × GError :=
  match exportedSessionKeyFromB64 ek with
  | .ok e => (⟨some (importInboundGroupSession e), ""⟩, .ok)
  | .error e => (⟨none, e.msg⟩, .failed)

/-- VodozemacInboundGroupSession::get_session_id (lines 94 to 109). -/

def VodozemacInboundGroupSession.get_session_id (S : VodozemacInboundGroupSession) :
    VodozemacInboundGroupSession × String :=
  match S.session with
  | none => ({ S with last_error := "Inbound group session not initialized" }, "")
  | some s => (⟨some s, ""⟩, inboundSessionIdB64 s)

/-- VodozemacInboundGroupSession::decrypt (lines 111 to 143). -/

def VodozemacInboundGroupSession.decrypt (S : VodozemacInboundGroupSession)
    (c : String) : VodozemacInboundGroupSession × Dict :=
  match S.session with
  | none =>
    ({ S with last_error := "Inbound group session not initialized" },
     [("success", .vbool false),
      ("error", .vstr "Inbound group session not initialized")])
  | some s =>
    match coreInboundDecrypt s c with
    | .ok (p, i, s2) =>
      (⟨some s2, ""⟩,
       [("success", .vbool true), ("plaintext", .vstr p), ("message_index", .vint i)])
    | .error e =>
      ({ S with last_error := e.msg },
       [("success", .vbool false), ("error", .vstr e.msg)])

/-- VodozemacInboundGroupSession::get_first_known_index (lines 145 to 159):
minus one when uninitialized. -/

def VodozemacInboundGroupSession.get_first_known_index
    (S : VodozemacInboundGroupSession) : VodozemacInboundGroupSession × Int :=
  match S.session with
  | none => ({ S with last_error := "Inbound group session not initialized" }, -1)
  | some s => (⟨some s, ""⟩, (s.firstKnown : Int))

/-- VodozemacInboundGroupSession::export_at_index (lines 161 to 189). -/

def VodozemacInboundGroupSession.export_at_index (S : VodozemacInboundGroupSession)
    (i : Int) : VodozemacInboundGroupSession × Dict :=
  match S.session with
  | none =>
    ({ S with last_error := "Inbound group session not initialized" },
     [("success", .vbool false),
      ("error", .vstr "Inbound group session not initialized")])
  | some s =>
    match coreInboundExportAt s i.toNat with
    | .ok ek =>
      (⟨some s, ""⟩, [("success", .vbool true), ("exported_key", .vstr ek)])
    | .error e =>
      ({ S with last_error := e.msg },
       [("success", .vbool false), ("error", .vstr e.msg)])

/-- VodozemacInboundGroupSession::pickle (lines 191 to 217). -/

def VodozemacInboundGroupSession.pickle (S : VodozemacInboundGroupSession)
    (key : List Nat) : VodozemacInboundGroupSession × PickleBlob :=
  match S.session with
  | none => ({ S with last_error := "Inbound group session not initialized" }, .raw "")
  | some s =>
    if key.length ≠ 32 then
      ({ S with last_error := "Key must be exactly 32 bytes" }, .raw "")
    else (⟨some s, ""⟩, coreInboundPickle s key)

/-- VodozemacInboundGroupSession::from_pickle (lines 219 to 252): key-length
check first; on a core failure the held session is deleted and nulled. -/

def VodozemacInboundGroupSession.from_pickle (S : VodozemacInboundGroupSession)
    (b : PickleBlob) (key : List Nat) : VodozemacInboundGroupSession × GError :=
  if key.length ≠ 32 then
    ({ S with last_error := "Key must be exactly 32 bytes" }, .failed)
  else
    match coreInboundFromPickle b key with
    | .ok s => (⟨some s, ""⟩, .ok)
    | .error e => (⟨none, e.msg⟩, .failed)

/-- VodozemacInboundGroupSession::get_last_error (lines 254 to 256). -/

def VodozemacInboundGroupSession.get_last_error (S : VodozemacInboundGroupSession) :
    String := S.last_error

/-! ### Observable behaviour machinery.

To state behavioural identity (claim-level round-trip) and monotonicity
across operation sequences, each entity gets a type of observable operation
inputs and a step/run function built from the wrapper methods above. -/

/-- The union of the value types a wrapper method can return. -/

inductive GOut
  | odict (d : Dict)
  | oerr (e : GError)
  | ostr (s : String)
  | oint (n : Int)
  | obool (b : Bool)
  deriving DecidableEq

def GError.isOk : GError → Bool
  | .ok => true
  | .failed => false

/-- Observable (non-persistence, non-initializing) account operations. -/

inductive AccObs
  | aIdKeys
  | aGen (n : Int)
  | aOtKeys
  | aMark
  | aMax
  deriving DecidableEq, Repr

def accObsStep (A : VodozemacAccount) : AccObs → VodozemacAccount × GOut
  | .aIdKeys => let r := A.get_identity_keys; (r.1, .odict r.2)
  | .aGen n => let r := A.generate_one_time_keys n; (r.1, .oerr r.2)
  | .aOtKeys => let r := A.get_one_time_keys; (r.1, .odict r.2)
  | .aMark => (A.mark_keys_as_published, .oerr .ok)
  | .aMax => let r := A.get_max_number_of_one_time_keys; (r.1, .oint r.2)

def accObsRun : VodozemacAccount → List AccObs → List GOut
  | _, [] => []
  | A, op :: t => (accObsStep A op).2 :: accObsRun (accObsStep A op).1 t

/-- Observable pairwise-session operations. -/

inductive SessObs
  | sId
  | sMatch (mt : Int) (c : List Bool)
  | sEnc (p : String)
  | sDec (mt : Int) (c : List Bool)
  deriving DecidableEq, Repr

def sessObsStep (S : VodozemacSession) : SessObs → VodozemacSession × GOut
  | .sId => let r := S.get_session_id; (r.1, .ostr r.2)
  | .sMatch mt c => let r := S.session_matches mt c; (r.1, .obool r.2)
  | .sEnc p => let r := S.encrypt p; (r.1, .odict r.2)
  | .sDec mt c => let r := S.decrypt mt c; (r.1, .odict r.2)

def sessObsRun : VodozemacSession → List SessObs → List GOut
  | _, [] => []
  | S, op :: t => (sessObsStep S op).2 :: sessObsRun (sessObsStep S op).1 t

/-- Observable outbound group session operations.  Initialization and
persistence calls are deliberately excluded: they replace the underlying
session rather than operate on it. -/

inductive GrpObs
  | gId
  | gEnc (p : String)
  | gKey
  | gIdx
  | gPickle (k : List Nat)
  deriving DecidableEq, Repr

def grpObsStep (G : VodozemacGroupSession) : GrpObs → VodozemacGroupSession × GOut
  | .gId => let r := G.get_session_id; (r.1, .ostr r.2)
  | .gEnc p => let r := G.encrypt p; (r.1, .odict r.2)
  | .gKey => let r := G.get_session_key; (r.1, .ostr r.2)
  | .gIdx => let r := G.get_message_index; (r.1, .oint r.2)
  | .gPickle k => let r := G.pickle k; (r.1, .ostr "")

def grpObsRun : VodozemacGroupSession → List GrpObs → VodozemacGroupSession
  | G, [] => G
  | G, op :: t => grpObsRun (grpObsStep G op).1 t

/-- The observable trace variant for the group session (outputs collected),
used for the round-trip claim. -/

def grpObsTrace : VodozemacGroupSession → List GrpObs → List GOut
  | _, [] => []
  | G, op :: t => (grpObsStep G op).2 :: grpObsTrace (grpObsStep G op).1 t

/-- Observable inbound group session operations. -/

inductive InbObs
  | iId
  | iDec (c : String)
  | iFki
  | iExp (i : Int)
  deriving DecidableEq, Repr

def inbObsStep (S : VodozemacInboundGroupSession) :
    InbObs → VodozemacInboundGroupSession × GOut
  | .iId => let r := S.get_session_id; (r.1, .ostr r.2)
  | .iDec c => let r := S.decrypt c; (r.1, .odict r.2)
  | .iFki => let r := S.get_first_known_index; (r.1, .oint r.2)
  | .iExp i => let r := S.export_at_index i; (r.1, .odict r.2)

def inbObsRun : VodozemacInboundGroupSession → List InbObs → List GOut
  | _, [] => []
  | S, op :: t => (inbObsStep S op).2 :: inbObsRun (inbObsStep S op).1 t

/-! ### Full operation alphabets with success flags.

For the last-error discipline, every fallible wrapper operation of each
entity is enumerated; the step returns the updated wrapper state together
with whether that call succeeded (the branch the C++ code reports success
on).  The get_last_error accessor is the retrieval mechanism of the slot and
is not itself an operation. -/

inductive AccOp
  | init (seed : Nat)
  | idKeys
  | gen (n : Int)
  | otKeys
  | mark
  | maxK
  | pick (k : List Nat)
  | unpick (b : PickleBlob) (k : List Nat)
  | outSess (ik otk : String) (seed : Nat)
  | inSess (ik : String) (mt : Int) (c : List Bool)

def accOpStep (A : VodozemacAccount) : AccOp → VodozemacAccount × Bool
  | .init s => (( A.initialize s).1, true)
  | .idKeys => ((A.get_identity_keys).1, A.account.isSome)
  | .gen n => let r := A.generate_one_time_keys n; (r.1, r.2.isOk)
  | .otKeys => ((A.get_one_time_keys).1, A.account.isSome)
  | .mark => (A.mark_keys_as_published, A.account.isSome)
  | .maxK => ((A.get_max_number_of_one_time_keys).1, A.account.isSome)
  | .pick k => ((A.pickle k).1, A.account.isSome && (k.length == 32))
  | .unpick b k => let r := A.from_pickle b k; (r.1, r.2.isOk)
  | .outSess ik otk sd =>
    let r := A.create_outbound_session ik otk sd
    (r.1, (r.2).session.isSome)
  | .inSess ik mt c =>
    let r := A.create_inbound_session ik mt c
    (r.1, match dictGet r.2 "success" with
          | some (.vbool true) => true
          | _ => false)

inductive SessOp
  | sid
  | smatch (mt : Int) (c : List Bool)
  | enc (p : String)
  | dec (mt : Int) (c : List Bool)
  | pick (k : List Nat)
  | unpick (b : PickleBlob) (k : List Nat)

def sessOpStep (S : VodozemacSession) : SessOp → VodozemacSession × Bool
  | .sid => ((S.get_session_id).1, S.session.isSome)
  | .smatch mt c => ((S.session_matches mt c).1, S.session.isSome)
  | .enc p => ((S.encrypt p).1, S.session.isSome)
  | .dec mt c =>
    let r := S.decrypt mt c
    (r.1, match dictGet r.2 "success" with
          | some (.vbool true) => true
          | _ => false)
  | .pick k => ((S.pickle k).1, S.session.isSome && (k.length == 32))
  | .unpick b k => let r := S.from_pickle b k; (r.1, r.2.isOk)

inductive GrpOp
  | init (seed : Nat)
  | sid
  | enc (p : String)
  | skey
  | midx
  | pick (k : List Nat)
  | unpick (b : PickleBlob) (k : List Nat)

def grpOpStep (G : VodozemacGroupSession) : GrpOp → VodozemacGroupSession × Bool
  | .init s => (( G.initialize s).1, true)
  | .sid => ((G.get_session_id).1, G.session.isSome)
  | .enc p => ((G.encrypt p).1, G.session.isSome)
  | .skey => ((G.get_session_key).1, G.session.isSome)
  | .midx => ((G.get_message_index).1, G.session.isSome)
  | .pick k => ((G.pickle k).1, G.session.isSome && (k.length == 32))
  | .unpick b k => let r := G.from_pickle b k; (r.1, r.2.isOk)

inductive InbOp
  | initSK (sk : String)
  | imp (ek : String)
  | sid
  | dec (c : String)
  | fki
  | exp (i : Int)
  | pick (k : List Nat)
  | unpick (b : PickleBlob) (k : List Nat)

def inbOpStep (S : VodozemacInboundGroupSession) :
    InbOp → VodozemacInboundGroupSession × Bool
  | .initSK sk => let r := S.initialize_from_session_key sk; (r.1, r.2.isOk)
  | .imp ek => let r := S.import_session ek; (r.1, r.2.isOk)
  | .sid => ((S.get_session_id).1, S.session.isSome)
  | .dec c =>
    let r := S.decrypt c
    (r.1, match dictGet r.2 "success" with
          | some (.vbool true) => true
          | _ => false)
  | .fki => ((S.get_first_known_index).1, S.session.isSome)
  | .exp i =>
    let r := S.export_at_index i
    (r.1, match dictGet r.2 "success" with
          | some (.vbool true) => true
          | _ => false)
  | .pick k => ((S.pickle k).1, S.session.isSome && (k.length == 32))
  | .unpick b k => let r := S.from_pickle b k; (r.1, r.2.isOk)

/-- C4 counterexample run: initialize, pickle the index-0 state, encrypt
once, then restore the pickle. -/

def gRun1 : VodozemacGroupSession := ( VodozemacGroupSession.initialize ⟨none, ""⟩ 0).1

def gBlob1 : PickleBlob := (gRun1.pickle (List.replicate 32 0)).2

def gRun2 : VodozemacGroupSession := (gRun1.encrypt "a").1

def gRun3 : VodozemacGroupSession := (gRun2.from_pickle gBlob1 (List.replicate 32 0)).1

theorem CoreErr.msg_ne_empty (e : CoreErr) : e.msg ≠ "" := by
  cases e <;> decide

theorem char_toNat_lt (c : Char) : c.toNat < 1114112 := by
  have h := c.valid
  simp only [Char.toNat]
  rcases h with h | ⟨h1, h2⟩
  · omega
  · omega

theorem encodeChars_append (l : List Char) (c : Char) :
    encodeChars (l ++ [c]) = encodeChars l * charBase + (c.toNat + 1) := by
  simp [encodeChars, List.foldl_append]

theorem decodeCharsAux_encode (l : List Char) :
    ∀ fuel, encodeChars l ≤ fuel → decodeCharsAux fuel (encodeChars l) = l := by
  induction l using List.reverseRecOn with
  | nil =>
    intro fuel _
    cases fuel with
    | zero => rfl
    | succ f => simp [decodeCharsAux, encodeChars]
  | append_singleton l c ih =>
    intro fuel hle
    rw [encodeChars_append] at hle ⊢
    have hc : c.toNat + 1 < charBase := by
      have := char_toNat_lt c
      simp only [charBase]
      omega
    have hne : encodeChars l * charBase + (c.toNat + 1) ≠ 0 := by positivity
    have hlt : encodeChars l < encodeChars l * charBase + (c.toNat + 1) := by
      have h1 : encodeChars l * 1 ≤ encodeChars l * charBase :=
        Nat.mul_le_mul_left _ (by simp [charBase])
      omega
    cases fuel with
    | zero => omega
    | succ f =>
      have hdiv : (encodeChars l * charBase + (c.toNat + 1)) / charBase = encodeChars l := by
        rw [Nat.mul_comm (encodeChars l) charBase, Nat.mul_add_div (by simp [charBase])]
        rw [Nat.div_eq_of_lt hc]
        omega
      have hmod : (encodeChars l * charBase + (c.toNat + 1)) % charBase = c.toNat + 1 := by
        rw [Nat.mul_comm (encodeChars l) charBase, Nat.mul_add_mod]
        exact Nat.mod_eq_of_lt hc
      simp only [decodeCharsAux, hne, if_false, hdiv, hmod]
      rw [ih f (by omega)]
      simp [Char.ofNat_toNat]

theorem natToStr_strToNat (s : String) : natToStr (strToNat s) = s := by
  obtain ⟨l⟩ := s
  simp only [natToStr, strToNat]
  rw [decodeCharsAux_encode l _ (Nat.le_refl _)]

theorem parseNat_natBits (n : Nat) (r : List Bool) :
    parseNat (natBits n ++ r) = some (n, r) := by
  induction n with
  | zero => rfl
  | succ m ih =>
    simp only [natBits] at ih ⊢
    simp only [List.replicate_succ, List.cons_append, parseNat, List.append_eq, ih]

theorem xorAll_flipBit (l : List Bool) (i : Nat) (h : i < l.length) :
    xorAll (flipBit i l) = !(xorAll l) := by
  induction l generalizing i with
  | nil => simp at h
  | cons a t ih =>
    cases i with
    | zero =>
      simp only [flipBit, List.getD_cons_zero, List.set_cons_zero, xorAll, List.foldr_cons]
      cases a <;> cases t.foldr xor false <;> rfl
    | succ j =>
      simp only [List.length_cons, Nat.succ_lt_succ_iff] at h
      simp only [flipBit, List.getD_cons_succ, List.set_cons_succ, xorAll, List.foldr_cons]
      have := ih j h
      simp only [flipBit, xorAll] at this
      rw [this]
      cases a <;> cases t.foldr xor false <;> rfl

theorem accObsStep_last_error_irrel (ac : Option OlmAccount) (le le2 : String)
    (op : AccObs) : accObsStep ⟨ac, le⟩ op = accObsStep ⟨ac, le2⟩ op := by
  cases op with
  | aIdKeys => cases ac <;> rfl
  | aGen n =>
    cases ac with
    | none => rfl
    | some a =>
      simp only [accObsStep, VodozemacAccount.generate_one_time_keys]
  | aOtKeys => cases ac <;> rfl
  | aMark => cases ac <;> rfl
  | aMax => cases ac <;> rfl

theorem accObsRun_last_error_irrel (ops : List AccObs) (ac : Option OlmAccount)
    (le le2 : String) : accObsRun ⟨ac, le⟩ ops = accObsRun ⟨ac, le2⟩ ops := by
  cases ops with
  | nil => rfl
  | cons op t => simp only [accObsRun, accObsStep_last_error_irrel ac le le2 op]

theorem sessObsStep_last_error_irrel (sc : Option OlmSession) (le le2 : String)
    (op : SessObs) : sessObsStep ⟨sc, le⟩ op = sessObsStep ⟨sc, le2⟩ op := by
  cases op with
  | sId => cases sc <;> rfl
  | sMatch mt c => cases sc <;> rfl
  | sEnc p => cases sc <;> rfl
  | sDec mt c =>
    cases sc with
    | none => rfl
    | some s =>
      simp only [sessObsStep, VodozemacSession.decrypt]

theorem sessObsRun_last_error_irrel (ops : List SessObs) (sc : Option OlmSession)
    (le le2 : String) : sessObsRun ⟨sc, le⟩ ops = sessObsRun ⟨sc, le2⟩ ops := by
  cases ops with
  | nil => rfl
  | cons op t => simp only [sessObsRun, sessObsStep_last_error_irrel sc le le2 op]

theorem grpObsStep_last_error_irrel (gc : Option GroupSession) (le le2 : String)
    (op : GrpObs) : grpObsStep ⟨gc, le⟩ op = grpObsStep ⟨gc, le2⟩ op := by
  cases op with
  | gId => cases gc <;> rfl
  | gEnc p => cases gc <;> rfl
  | gKey => cases gc <;> rfl
  | gIdx => cases gc <;> rfl
  | gPickle k =>
    cases gc with
    | none => rfl
    | some g =>
      simp only [grpObsStep, VodozemacGroupSession.pickle]

theorem grpObsTrace_last_error_irrel (ops : List GrpObs) (gc : Option GroupSession)
    (le le2 : String) : grpObsTrace ⟨gc, le⟩ ops = grpObsTrace ⟨gc, le2⟩ ops := by
  cases ops with
  | nil => rfl
  | cons op t => simp only [grpObsTrace, grpObsStep_last_error_irrel gc le le2 op]

theorem inbObsStep_last_error_irrel (sc : Option InboundGroupSession)
    (le le2 : String) (op : InbObs) :
    inbObsStep ⟨sc, le⟩ op = inbObsStep ⟨sc, le2⟩ op := by
  cases op with
  | iId => cases sc <;> rfl
  | iDec c =>
    cases sc with
    | none => rfl
    | some s =>
      simp only [inbObsStep, VodozemacInboundGroupSession.decrypt]
  | iFki => cases sc <;> rfl
  | iExp i =>
    cases sc with
    | none => rfl
    | some s =>
      simp only [inbObsStep, VodozemacInboundGroupSession.export_at_index]

theorem inbObsRun_last_error_irrel (ops : List InbObs) (sc : Option InboundGroupSession)
    (le le2 : String) : inbObsRun ⟨sc, le⟩ ops = inbObsRun ⟨sc, le2⟩ ops := by
  cases ops with
  | nil => rfl
  | cons op t => simp only [inbObsRun, inbObsStep_last_error_irrel sc le le2 op]

/-! ### Shared auxiliary facts. -/

theorem acc_notinit_ne : ("Account not initialized" : String) ≠ "" := by decide

theorem keylen_msg_ne : ("Key must be exactly 32 bytes" : String) ≠ "" := by decide

/-! ### Claim C5: the 32-byte key precheck. -/

/-- C5 (amended): for every initialized entity, pickle with a key whose
length is not 32 fails with the message "Key must be exactly 32 bytes" and
leaves the state unchanged, and from_pickle performs the same check first
regardless of initialization; for an uninitialized entity pickle reports the
not-initialized message instead, because the initialization check precedes
the key-length check. -/

theorem key_length_check_amended :
    (∀ (A : VodozemacAccount) (a : OlmAccount) (k : List Nat),
      A.account = some a → k.length ≠ 32 →
      A.pickle k = ({ A with last_error := "Key must be exactly 32 bytes" }, .raw "")) ∧
    (∀ (A : VodozemacAccount) (b : PickleBlob) (k : List Nat), k.length ≠ 32 →
      A.from_pickle b k = ({ A with last_error := "Key must be exactly 32 bytes" }, .failed)) ∧
    (∀ (S : VodozemacSession) (s : OlmSession) (k : List Nat),
      S.session = some s → k.length ≠ 32 →
      S.pickle k = ({ S with last_error := "Key must be exactly 32 bytes" }, .raw "")) ∧
    (∀ (S : VodozemacSession) (b : PickleBlob) (k : List Nat), k.length ≠ 32 →
      S.from_pickle b k = ({ S with last_error := "Key must be exactly 32 bytes" }, .failed)) ∧
    (∀ (G : VodozemacGroupSession) (g : GroupSession) (k : List Nat),
      G.session = some g → k.length ≠ 32 →
      G.pickle k = ({ G with last_error := "Key must be exactly 32 bytes" }, .raw "")) ∧
    (∀ (G : VodozemacGroupSession) (b : PickleBlob) (k : List Nat), k.length ≠ 32 →
      G.from_pickle b k = ({ G with last_error := "Key must be exactly 32 bytes" }, .failed)) ∧
    (∀ (S : VodozemacInboundGroupSession) (s : InboundGroupSession) (k : List Nat),
      S.session = some s → k.length ≠ 32 →
      S.pickle k = ({ S with last_error := "Key must be exactly 32 bytes" }, .raw "")) ∧
    (∀ (S : VodozemacInboundGroupSession) (b : PickleBlob) (k : List Nat),
      k.length ≠ 32 →
      S.from_pickle b k = ({ S with last_error := "Key must be exactly 32 bytes" }, .failed)) ∧
    (∀ (A : VodozemacAccount) (k : List Nat), A.account = none →
      A.pickle k = ({ A with last_error := "Account not initialized" }, .raw "")) := by
  refine ⟨?_, ?_, ?_, ?_, ?_, ?_, ?_, ?_, ?_⟩
  · intro A a k h1 h2
    obtain ⟨ac, le⟩ := A
    subst h1
    simp [VodozemacAccount.pickle, h2]
  · intro A b k h2
    simp [VodozemacAccount.from_pickle, h2]
  · intro S s k h1 h2
    obtain ⟨sc, le⟩ := S
    subst h1
    simp [VodozemacSession.pickle, h2]
  · intro S b k h2
    simp [VodozemacSession.from_pickle, h2]
  · intro G g k h1 h2
    obtain ⟨gc, le⟩ := G
    subst h1
    simp [VodozemacGroupSession.pickle, h2]
  · intro G b k h2
    simp [VodozemacGroupSession.from_pickle, h2]
  · intro S s k h1 h2
    obtain ⟨sc, le⟩ := S
    subst h1
    simp [VodozemacInboundGroupSession.pickle, h2]
  · intro S b k h2
    simp [VodozemacInboundGroupSession.from_pickle, h2]
  · intro A k h1
    obtain ⟨ac, le⟩ := A
    subst h1
    simp [VodozemacAccount.pickle]

/-- C5 witness: the amended statement applied at concrete inputs. -/

theorem key_length_check_amended_witness :
    ((⟨some (newAccount 0), "x"⟩ : VodozemacAccount).account = some (newAccount 0) ∧
      ([] : List Nat).length ≠ 32) ∧
    (⟨some (newAccount 0), "x"⟩ : VodozemacAccount).pickle [] =
      (⟨some (newAccount 0), "Key must be exactly 32 bytes"⟩, .raw "") ∧
    (⟨none, ""⟩ : VodozemacSession).from_pickle (.raw "z") [1, 2] =
      (⟨none, "Key must be exactly 32 bytes"⟩, .failed) :=
  ⟨⟨rfl, by decide⟩,
   key_length_check_amended.1 _ (newAccount 0) [] rfl (by decide),
   key_length_check_amended.2.2.2.1 _ (.raw "z") [1, 2] (by decide)⟩

/-- C5 counterexample: the claim quantifies over every entity, but for an
uninitialized account the pickle failure message is the not-initialized
message, not the key-length message the claim requires. -/

theorem pickle_key_length_message_cex :
    ([] : List Nat).length ≠ 32 ∧
    ((VodozemacAccount.pickle ⟨none, ""⟩ []).1).last_error = "Account not initialized" ∧
    ("Account not initialized" : String) ≠ "Key must be exactly 32 bytes" := by
  refine ⟨by decide, rfl, by decide⟩

/-! ### Claim C2: what a failing from_pickle leaves behind. -/

/-- C2 counterexample: an initialized account subjected to a failing
from_pickle (well-sized key, non-pickle blob) does not keep its prior
state: the core account is deleted and the entity ends uninitialized, so a
subsequent get_identity_keys behaves differently than before the call. -/

theorem from_pickle_failure_destroys_state_cex :
    ((⟨some (newAccount 0), ""⟩ : VodozemacAccount).from_pickle (.raw "x")
        (List.replicate 32 0)).2 = .failed ∧
    ((⟨some (newAccount 0), ""⟩ : VodozemacAccount).from_pickle (.raw "x")
        (List.replicate 32 0)).1.account ≠
      (⟨some (newAccount 0), ""⟩ : VodozemacAccount).account ∧
    (((⟨some (newAccount 0), ""⟩ : VodozemacAccount).from_pickle (.raw "x")
        (List.replicate 32 0)).1.get_identity_keys).2 ≠
      ((⟨some (newAccount 0), ""⟩ : VodozemacAccount).get_identity_keys).2 := by
  refine ⟨rfl, by decide, by decide⟩

/-- C2 (amended): a from_pickle call that fails its key-length precheck
leaves the prior state untouched; every other failing from_pickle deletes
the previously held core object and leaves the entity uninitialized with a
non-empty error message, matching the "must remain uninitialized" sentence
of the spec rather than the "prior state unchanged" one. -/

theorem from_pickle_failure_leaves_uninitialized :
    (∀ (A : VodozemacAccount) (b : PickleBlob) (k : List Nat),
      (A.from_pickle b k).2 = .failed →
      (k.length ≠ 32 ∧
        (A.from_pickle b k).1 = { A with last_error := "Key must be exactly 32 bytes" }) ∨
      ((A.from_pickle b k).1.account = none ∧ (A.from_pickle b k).1.last_error ≠ "")) ∧
    (∀ (S : VodozemacSession) (b : PickleBlob) (k : List Nat),
      (S.from_pickle b k).2 = .failed →
      (k.length ≠ 32 ∧
        (S.from_pickle b k).1 = { S with last_error := "Key must be exactly 32 bytes" }) ∨
      ((S.from_pickle b k).1.session = none ∧ (S.from_pickle b k).1.last_error ≠ "")) ∧
    (∀ (G : VodozemacGroupSession) (b : PickleBlob) (k : List Nat),
      (G.from_pickle b k).2 = .failed →
      (k.length ≠ 32 ∧
        (G.from_pickle b k).1 = { G with last_error := "Key must be exactly 32 bytes" }) ∨
      ((G.from_pickle b k).1.session = none ∧ (G.from_pickle b k).1.last_error ≠ "")) ∧
    (∀ (S : VodozemacInboundGroupSession) (b : PickleBlob) (k : List Nat),
      (S.from_pickle b k).2 = .failed →
      (k.length ≠ 32 ∧
        (S.from_pickle b k).1 = { S with last_error := "Key must be exactly 32 bytes" }) ∨
      ((S.from_pickle b k).1.session = none ∧ (S.from_pickle b k).1.last_error ≠ "")) := by
  refine ⟨?_, ?_, ?_, ?_⟩
  · intro A b k hf
    by_cases hk : k.length ≠ 32
    · exact .inl ⟨hk, by simp [VodozemacAccount.from_pickle, hk]⟩
    · refine .inr ?_
      simp only [VodozemacAccount.from_pickle, hk, if_false] at hf ⊢
      cases h : coreAccountFromPickle b k with
      | ok a => rw [h] at hf; simp at hf
      | error e => simp [h, CoreErr.msg_ne_empty]
  · intro S b k hf
    by_cases hk : k.length ≠ 32
    · exact .inl ⟨hk, by simp [VodozemacSession.from_pickle, hk]⟩
    · refine .inr ?_
      simp only [VodozemacSession.from_pickle, hk, if_false] at hf ⊢
      cases h : coreSessionFromPickle b k with
      | ok s => rw [h] at hf; simp at hf
      | error e => simp [h, CoreErr.msg_ne_empty]
  · intro G b k hf
    by_cases hk : k.length ≠ 32
    · exact .inl ⟨hk, by simp [VodozemacGroupSession.from_pickle, hk]⟩
    · refine .inr ?_
      simp only [VodozemacGroupSession.from_pickle, hk, if_false] at hf ⊢
      cases h : coreGroupFromPickle b k with
      | ok g => rw [h] at hf; simp at hf
      | error e => simp [h, CoreErr.msg_ne_empty]
  · intro S b k hf
    by_cases hk : k.length ≠ 32
    · exact .inl ⟨hk, by simp [VodozemacInboundGroupSession.from_pickle, hk]⟩
    · refine .inr ?_
      simp only [VodozemacInboundGroupSession.from_pickle, hk, if_false] at hf ⊢
      cases h : coreInboundFromPickle b k with
      | ok s => rw [h] at hf; simp at hf
      | error e => simp [h, CoreErr.msg_ne_empty]

/-- C2 witness: the amended statement applied at a concrete failing
from_pickle on an initialized account. -/

theorem from_pickle_failure_leaves_uninitialized_witness :
    ((⟨some (newAccount 0), ""⟩ : VodozemacAccount).from_pickle (.raw "x")
        (List.replicate 32 0)).2 = .failed ∧
    ((((⟨some (newAccount 0), ""⟩ : VodozemacAccount).from_pickle (.raw "x")
          (List.replicate 32 0)).1.account = none ∧
        ((⟨some (newAccount 0), ""⟩ : VodozemacAccount).from_pickle (.raw "x")
            (List.replicate 32 0)).1.last_error ≠ "") ∨
      ((List.replicate 32 (0 : Nat)).length ≠ 32)) :=
  ⟨rfl, by
    rcases from_pickle_failure_leaves_uninitialized.1 ⟨some (newAccount 0), ""⟩
      (.raw "x") (List.replicate 32 0) rfl with h | h
    · exact .inr h.1
    · exact .inl h⟩

/-! ### Claim C10: defaults on uninitialized entities. -/

/-- C10 counterexample: get_identity_keys is a Dictionary-returning
operation, yet on an uninitialized account it returns an empty dictionary
with no success entry at all, where the claim requires success = false. -/

theorem uninitialized_dict_no_success_cex :
    (VodozemacAccount.get_identity_keys ⟨none, ""⟩).2 = [] ∧
    dictGet ((VodozemacAccount.get_identity_keys ⟨none, ""⟩).2) "success" = none := by
  exact ⟨rfl, rfl⟩

/-- C10 (amended): on an entity holding no core object, every
non-initializing operation returns its failure default without reaching the
core and records the not-initialized message in the last-error slot:
Error-returning operations return FAILED; the encrypt, decrypt,
create_inbound_session and export_at_index dictionaries carry
success = false; get_identity_keys and get_one_time_keys return an empty
dictionary with no success entry; string accessors return the empty string;
get_message_index and get_first_known_index return minus one;
get_max_number_of_one_time_keys returns 0; session_matches returns false;
create_outbound_session returns an uninitialized session ref. -/

theorem uninitialized_defaults_amended :
    (∀ le, VodozemacAccount.get_identity_keys ⟨none, le⟩ =
      (⟨none, "Account not initialized"⟩, [])) ∧
    (∀ le n, VodozemacAccount.generate_one_time_keys ⟨none, le⟩ n =
      (⟨none, "Account not initialized"⟩, .failed)) ∧
    (∀ le, VodozemacAccount.get_one_time_keys ⟨none, le⟩ =
      (⟨none, "Account not initialized"⟩, [])) ∧
    (∀ le, VodozemacAccount.mark_keys_as_published ⟨none, le⟩ =
      ⟨none, "Account not initialized"⟩) ∧
    (∀ le, VodozemacAccount.get_max_number_of_one_time_keys ⟨none, le⟩ =
      (⟨none, "Account not initialized"⟩, 0)) ∧
    (∀ le k, VodozemacAccount.pickle ⟨none, le⟩ k =
      (⟨none, "Account not initialized"⟩, .raw "")) ∧
    (∀ le ik otk sd, VodozemacAccount.create_outbound_session ⟨none, le⟩ ik otk sd =
      (⟨none, "Account not initialized"⟩, ⟨none, ""⟩)) ∧
    (∀ le ik mt c, VodozemacAccount.create_inbound_session ⟨none, le⟩ ik mt c =
      (⟨none, "Account not initialized"⟩,
       [("success", .vbool false), ("session", .vsession ⟨none, ""⟩),
        ("plaintext", .vstr ""), ("error", .vstr "Account not initialized")])) ∧
    (∀ le, VodozemacSession.get_session_id ⟨none, le⟩ =
      (⟨none, "Session not initialized"⟩, "")) ∧
    (∀ le mt c, VodozemacSession.session_matches ⟨none, le⟩ mt c =
      (⟨none, "Session not initialized"⟩, false)) ∧
    (∀ le p, VodozemacSession.encrypt ⟨none, le⟩ p =
      (⟨none, "Session not initialized"⟩,
       [("success", .vbool false), ("error", .vstr "Session not initialized")])) ∧
    (∀ le mt c, VodozemacSession.decrypt ⟨none, le⟩ mt c =
      (⟨none, "Session not initialized"⟩,
       [("success", .vbool false), ("error", .vstr "Session not initialized")])) ∧
    (∀ le k, VodozemacSession.pickle ⟨none, le⟩ k =
      (⟨none, "Session not initialized"⟩, .raw "")) ∧
    (∀ le, VodozemacGroupSession.get_session_id ⟨none, le⟩ =
      (⟨none, "Group session not initialized"⟩, "")) ∧
    (∀ le p, VodozemacGroupSession.encrypt ⟨none, le⟩ p =
      (⟨none, "Group session not initialized"⟩,
       [("success", .vbool false), ("error", .vstr "Group session not initialized")])) ∧
    (∀ le, VodozemacGroupSession.get_session_key ⟨none, le⟩ =
      (⟨none, "Group session not initialized"⟩, "")) ∧
    (∀ le, VodozemacGroupSession.get_message_index ⟨none, le⟩ =
      (⟨none, "Group session not initialized"⟩, -1)) ∧
    (∀ le k, VodozemacGroupSession.pickle ⟨none, le⟩ k =
      (⟨none, "Group session not initialized"⟩, .raw "")) ∧
    (∀ le, VodozemacInboundGroupSession.get_session_id ⟨none, le⟩ =
      (⟨none, "Inbound group session not initialized"⟩, "")) ∧
    (∀ le c, VodozemacInboundGroupSession.decrypt ⟨none, le⟩ c =
      (⟨none, "Inbound group session not initialized"⟩,
       [("success", .vbool false),
        ("error", .vstr "Inbound group session not initialized")])) ∧
    (∀ le, VodozemacInboundGroupSession.get_first_known_index ⟨none, le⟩ =
      (⟨none, "Inbound group session not initialized"⟩, -1)) ∧
    (∀ le i, VodozemacInboundGroupSession.export_at_index ⟨none, le⟩ i =
      (⟨none, "Inbound group session not initialized"⟩,
       [("success", .vbool false),
        ("error", .vstr "Inbound group session not initialized")])) ∧
    (∀ le k, VodozemacInboundGroupSession.pickle ⟨none, le⟩ k =
      (⟨none, "Inbound group session not initialized"⟩, .raw "")) := by
  refine ⟨fun le => rfl, fun le n => rfl, fun le => rfl, fun le => rfl, fun le => rfl,
    fun le k => rfl, fun le ik otk sd => rfl, fun le ik mt c => rfl, fun le => rfl,
    fun le mt c => rfl, fun le p => rfl, fun le mt c => rfl, fun le k => rfl,
    fun le => rfl, fun le p => rfl, fun le => rfl, fun le => rfl, fun le k => rfl,
    fun le => rfl, fun le c => rfl, fun le => rfl, fun le i => rfl, fun le k => rfl⟩

/-! ### Claim C4: group-session message index. -/

theorem grpObsStep_index_mono (G : VodozemacGroupSession) (op : GrpObs) :
    (G.get_message_index).2 ≤ (((grpObsStep G op).1).get_message_index).2 := by
  obtain ⟨gc, le⟩ := G
  cases op with
  | gId => cases gc <;> simp [grpObsStep, VodozemacGroupSession.get_session_id,
      VodozemacGroupSession.get_message_index]
  | gEnc p =>
    cases gc with
    | none => simp [grpObsStep, VodozemacGroupSession.encrypt,
        VodozemacGroupSession.get_message_index]
    | some g =>
      simp [grpObsStep, VodozemacGroupSession.encrypt,
        VodozemacGroupSession.get_message_index, coreGroupEncrypt]
  | gKey => cases gc <;> simp [grpObsStep, VodozemacGroupSession.get_session_key,
      VodozemacGroupSession.get_message_index]
  | gIdx => cases gc <;> simp [grpObsStep, VodozemacGroupSession.get_message_index]
  | gPickle k =>
    cases gc with
    | none => simp [grpObsStep, VodozemacGroupSession.pickle,
        VodozemacGroupSession.get_message_index]
    | some g =>
      by_cases hk : k.length ≠ 32 <;>
        simp [grpObsStep, VodozemacGroupSession.pickle,
          VodozemacGroupSession.get_message_index, hk]

theorem grpObsRun_index_mono (ops : List GrpObs) (G : VodozemacGroupSession) :
    (G.get_message_index).2 ≤ ((grpObsRun G ops).get_message_index).2 := by
  induction ops generalizing G with
  | nil => exact le_refl _
  | cons op t ih =>
    exact le_trans (grpObsStep_index_mono G op) (ih (grpObsStep G op).1)

/-- C4 counterexample: across the operation sequence encrypt then
from_pickle of an earlier pickle, the value returned by get_message_index
decreases from 1 to 0, so it is not true that the index never decreases
across any sequence of operations. -/

theorem message_index_decreases_after_unpickle_cex :
    (gRun2.get_message_index).2 = 1 ∧
    (gRun2.from_pickle gBlob1 (List.replicate 32 0)).2 = .ok ∧
    (gRun3.get_message_index).2 = 0 := by
  refine ⟨rfl, by decide, rfl⟩

/-- C4 (amended): for every initialized GroupSession, get_message_index
returns 0 before any encrypt (a freshly initialized session reports index
0), each successful encrypt call increases the returned index by exactly 1,
and the index never decreases across any sequence of operations that does
not re-seed the session (everything except initialize and from_pickle);
restoring an earlier pickle or re-initializing can lower it. -/

theorem message_index_monotonic_amended :
    (∀ (G : VodozemacGroupSession) (seed : Nat),
      ((( G.initialize seed).1).get_message_index).2 = 0) ∧
    (∀ (G : VodozemacGroupSession) (g : GroupSession) (p : String),
      G.session = some g →
      dictGet (G.encrypt p).2 "success" = some (.vbool true) ∧
      (((G.encrypt p).1).get_message_index).2 = (G.get_message_index).2 + 1) ∧
    (∀ (G : VodozemacGroupSession) (ops : List GrpObs),
      (G.get_message_index).2 ≤ ((grpObsRun G ops).get_message_index).2) := by
  refine ⟨fun G seed => rfl, ?_, fun G ops => grpObsRun_index_mono ops G⟩
  intro G g p h
  obtain ⟨gc, le⟩ := G
  subst h
  exact ⟨rfl, by simp [VodozemacGroupSession.encrypt,
    VodozemacGroupSession.get_message_index, coreGroupEncrypt]⟩

/-- C4 witness: the amended statement applied at a freshly initialized
group session. -/

theorem message_index_monotonic_amended_witness :
    gRun1.session = some (newGroupSession 0) ∧
    dictGet (gRun1.encrypt "a").2 "success" = some (.vbool true) ∧
    (((gRun1.encrypt "a").1).get_message_index).2 = (gRun1.get_message_index).2 + 1 :=
  ⟨rfl, (message_index_monotonic_amended.2.1 gRun1 (newGroupSession 0) "a" rfl).1,
   (message_index_monotonic_amended.2.1 gRun1 (newGroupSession 0) "a" rfl).2⟩

/-! ### Claim C8: mark_keys_as_published is idempotent. -/

theorem markPublished_idem (l : List OneTimeKey) :
    ((l.map fun k => { k with published := true }).map
        fun k => { k with published := true }) =
      l.map fun k => { k with published := true } := by
  induction l with
  | nil => rfl
  | cons a t ih => simp [ih]

theorem filter_unpublished_marked (l : List OneTimeKey) :
    ((l.map fun k => { k with published := true }).filter fun k => !k.published) = [] := by
  induction l with
  | nil => rfl
  | cons a t ih => simp [ih]

/-- C8: on an initialized account, marking keys as published twice yields
exactly the state of marking once, the unpublished snapshot is empty after
the first call, and it stays empty after the second. -/

theorem mark_keys_as_published_idempotent (A : VodozemacAccount) (a : OlmAccount)
    (h : A.account = some a) :
    A.mark_keys_as_published.mark_keys_as_published = A.mark_keys_as_published ∧
    (A.mark_keys_as_published.get_one_time_keys).2 = [] ∧
    (A.mark_keys_as_published.mark_keys_as_published.get_one_time_keys).2 = [] := by
  obtain ⟨ac, le⟩ := A
  subst h
  have he : (⟨some a, le⟩ : VodozemacAccount).mark_keys_as_published.mark_keys_as_published =
      (⟨some a, le⟩ : VodozemacAccount).mark_keys_as_published := by
    simp only [VodozemacAccount.mark_keys_as_published, coreMarkPublished]
    rw [markPublished_idem]
  have hsnap : ((⟨some a, le⟩ :
      VodozemacAccount).mark_keys_as_published.get_one_time_keys).2 = [] := by
    simp [VodozemacAccount.mark_keys_as_published, VodozemacAccount.get_one_time_keys,
      coreMarkPublished, coreOneTimeKeys, filter_unpublished_marked]
  exact ⟨he, hsnap, by rw [he]; exact hsnap⟩

/-- C8 witness: the idempotence applied at a concrete account holding one
unpublished and one published key. -/

theorem mark_keys_as_published_idempotent_witness :
    (⟨some { newAccount 0 with
        pool := [⟨0, 5, false⟩, ⟨1, 6, true⟩], nextId := 2 }, "e"⟩ :
      VodozemacAccount).account =
      some { newAccount 0 with pool := [⟨0, 5, false⟩, ⟨1, 6, true⟩], nextId := 2 } ∧
    ((⟨some { newAccount 0 with
        pool := [⟨0, 5, false⟩, ⟨1, 6, true⟩], nextId := 2 }, "e"⟩ :
      VodozemacAccount).mark_keys_as_published.get_one_time_keys).2 = [] ∧
    (⟨some { newAccount 0 with
        pool := [⟨0, 5, false⟩, ⟨1, 6, true⟩], nextId := 2 }, "e"⟩ :
      VodozemacAccount).mark_keys_as_published.mark_keys_as_published =
      (⟨some { newAccount 0 with
        pool := [⟨0, 5, false⟩, ⟨1, 6, true⟩], nextId := 2 }, "e"⟩ :
      VodozemacAccount).mark_keys_as_published :=
  ⟨rfl,
   (mark_keys_as_published_idempotent _ _ rfl).2.1,
   (mark_keys_as_published_idempotent _ _ rfl).1⟩

/-! ### Claim C6: generate_one_time_keys. -/

/-- C6: on an initialized account, generate_one_time_keys fails with the
InvalidArgument message and an unchanged pool when count is not positive;
for positive count it succeeds and appends exactly count fresh unpublished
keys with strictly increasing ids while every previously held pool entry is
kept.  Stated against the spec-modelled core. -/

theorem generate_one_time_keys_spec (A : VodozemacAccount) (a : OlmAccount) (n : Int)
    (h : A.account = some a) :
    (n ≤ 0 → A.generate_one_time_keys n =
      ({ A with last_error := CoreErr.msg .invalidArgument }, .failed)) ∧
    (0 < n →
      (A.generate_one_time_keys n).2 = .ok ∧
      (A.generate_one_time_keys n).1.account = some { a with
        pool := a.pool ++ genKeys a.nextId a.rng n.toNat,
        nextId := a.nextId + n.toNat, rng := a.rng + n.toNat } ∧
      (genKeys a.nextId a.rng n.toNat).length = n.toNat ∧
      (genKeys a.nextId a.rng n.toNat).Pairwise (fun x y => x.keyId < y.keyId) ∧
      (∀ x ∈ genKeys a.nextId a.rng n.toNat, x.published = false) ∧
      (∀ x ∈ a.pool, x ∈ a.pool ++ genKeys a.nextId a.rng n.toNat)) := by
  obtain ⟨ac, le⟩ := A
  subst h
  constructor
  · intro hn
    simp [VodozemacAccount.generate_one_time_keys, coreGenerateOneTimeKeys, hn]
  · intro hn
    have hn2 : ¬ (n ≤ 0) := by omega
    refine ⟨?_, ?_, ?_, ?_, ?_, ?_⟩
    · simp [VodozemacAccount.generate_one_time_keys, coreGenerateOneTimeKeys, hn2,
        GError.isOk]
    · simp [VodozemacAccount.generate_one_time_keys, coreGenerateOneTimeKeys, hn2]
    · simp [genKeys]
    · refine List.Pairwise.map _ (fun x y hxy => ?_) (List.pairwise_lt_range n.toNat)
      simpa using hxy
    · intro x hx
      simp only [genKeys, List.mem_map, List.mem_range] at hx
      obtain ⟨j, _, rfl⟩ := hx
      rfl
    · intro x hx
      exact List.mem_append_left _ hx

/-- C6 witness: the statement applied at a concrete initialized account with
count 1 and count 0. -/

theorem generate_one_time_keys_spec_witness :
    (⟨some (newAccount 0), ""⟩ : VodozemacAccount).account = some (newAccount 0) ∧
    ((⟨some (newAccount 0), ""⟩ : VodozemacAccount).generate_one_time_keys 1).2 = .ok ∧
    (⟨some (newAccount 0), ""⟩ : VodozemacAccount).generate_one_time_keys 0 =
      (⟨some (newAccount 0), CoreErr.msg .invalidArgument⟩, .failed) :=
  ⟨rfl,
   ((generate_one_time_keys_spec _ (newAccount 0) 1 rfl).2 (by decide)).1,
   (generate_one_time_keys_spec _ (newAccount 0) 0 rfl).1 (by decide)⟩

/-! ### Claim C7: invalid keys in create_outbound_session. -/

/-- C7: on an initialized account, when either peer key fails base64/point
validation, create_outbound_session surfaces the distinguishable InvalidKey
error kind in the last-error slot, returns an uninitialized session ref (no
established session), and leaves the account state unchanged.  Stated
against the spec-modelled key validation. -/

theorem create_outbound_session_invalid_key (A : VodozemacAccount) (a : OlmAccount)
    (ik otk : String) (seed : Nat) (h : A.account = some a)
    (hbad : validCurveKey ik = false ∨ validCurveKey otk = false) :
    ((A.create_outbound_session ik otk seed).2).session = none ∧
    (A.create_outbound_session ik otk seed).1 =
      { A with last_error := CoreErr.msg .invalidKey } ∧
    (A.create_outbound_session ik otk seed).1.account = A.account := by
  obtain ⟨ac, le⟩ := A
  subst h
  rcases hbad with hbad | hbad
  · simp [VodozemacAccount.create_outbound_session, curveKeyFromB64, hbad]
  · by_cases hik : validCurveKey ik <;>
      simp [VodozemacAccount.create_outbound_session, curveKeyFromB64, hik, hbad]

/-- C7 witness: the statement applied at a concrete malformed identity
key. -/

theorem create_outbound_session_invalid_key_witness :
    (⟨some (newAccount 0), ""⟩ : VodozemacAccount).account = some (newAccount 0) ∧
    validCurveKey "!" = false ∧
    ((((⟨some (newAccount 0), ""⟩ : VodozemacAccount).create_outbound_session
        "!" "x" 3).2).session = none ∧
      ((⟨some (newAccount 0), ""⟩ : VodozemacAccount).create_outbound_session
        "!" "x" 3).1.account = (⟨some (newAccount 0), ""⟩ : VodozemacAccount).account) :=
  ⟨rfl, by decide,
   (create_outbound_session_invalid_key _ (newAccount 0) "!" "x" 3 rfl
      (.inl (by decide))).1,
   (create_outbound_session_invalid_key _ (newAccount 0) "!" "x" 3 rfl
      (.inl (by decide))).2.2⟩

/-! ### Claim C9: last-error slot discipline. -/

theorem accOp_last_error_aux (A : VodozemacAccount) (op : AccOp) :
    ((accOpStep A op).1.last_error = "" ↔ (accOpStep A op).2 = true) ∧
    (∀ le, (accOpStep ⟨A.account, le⟩ op).1.last_error =
      (accOpStep A op).1.last_error) := by
  obtain ⟨ac, le0⟩ := A
  cases op with
  | init s => exact ⟨by simp [accOpStep, VodozemacAccount.initialize], fun le => rfl⟩
  | idKeys =>
    cases ac with
    | none =>
      exact ⟨by simp [accOpStep, VodozemacAccount.get_identity_keys, acc_notinit_ne],
        fun le => rfl⟩
    | some a =>
      exact ⟨by simp [accOpStep, VodozemacAccount.get_identity_keys], fun le => rfl⟩
  | gen n =>
    cases ac with
    | none =>
      exact ⟨by simp [accOpStep, VodozemacAccount.generate_one_time_keys,
        acc_notinit_ne, GError.isOk], fun le => rfl⟩
    | some a =>
      cases h : coreGenerateOneTimeKeys a n with
      | ok a2 =>
        exact ⟨by simp [accOpStep, VodozemacAccount.generate_one_time_keys, h,
          GError.isOk], fun le => by
            simp [accOpStep, VodozemacAccount.generate_one_time_keys, h]⟩
      | error e =>
        exact ⟨by simp [accOpStep, VodozemacAccount.generate_one_time_keys, h,
          GError.isOk, CoreErr.msg_ne_empty e], fun le => by
            simp [accOpStep, VodozemacAccount.generate_one_time_keys, h]⟩
  | otKeys =>
    cases ac with
    | none =>
      exact ⟨by simp [accOpStep, VodozemacAccount.get_one_time_keys, acc_notinit_ne],
        fun le => rfl⟩
    | some a =>
      exact ⟨by simp [accOpStep, VodozemacAccount.get_one_time_keys], fun le => rfl⟩
  | mark =>
    cases ac with
    | none =>
      exact ⟨by simp [accOpStep, VodozemacAccount.mark_keys_as_published,
        acc_notinit_ne], fun le => rfl⟩
    | some a =>
      exact ⟨by simp [accOpStep, VodozemacAccount.mark_keys_as_published],
        fun le => rfl⟩
  | maxK =>
    cases ac with
    | none =>
      exact ⟨by simp [accOpStep, VodozemacAccount.get_max_number_of_one_time_keys,
        acc_notinit_ne], fun le => rfl⟩
    | some a =>
      exact ⟨by simp [accOpStep, VodozemacAccount.get_max_number_of_one_time_keys],
        fun le => rfl⟩
  | pick k =>
    cases ac with
    | none =>
      exact ⟨by simp [accOpStep, VodozemacAccount.pickle, acc_notinit_ne],
        fun le => rfl⟩
    | some a =>
      by_cases hk : k.length ≠ 32
      · refine ⟨?_, fun le => ?_⟩ <;>
          simp [accOpStep, VodozemacAccount.pickle, hk, keylen_msg_ne,
            Nat.ne_of_lt, fun h => hk h]
      · have hk2 : k.length = 32 := by omega
        refine ⟨?_, fun le => ?_⟩ <;>
          simp [accOpStep, VodozemacAccount.pickle, hk, hk2]
  | unpick b k =>
    by_cases hk : k.length ≠ 32
    · refine ⟨?_, fun le => ?_⟩ <;>
        simp [accOpStep, VodozemacAccount.from_pickle, hk, keylen_msg_ne, GError.isOk]
    · cases h : coreAccountFromPickle b k with
      | ok a2 =>
        refine ⟨?_, fun le => ?_⟩ <;>
          simp [accOpStep, VodozemacAccount.from_pickle, hk, h, GError.isOk]
      | error e =>
        refine ⟨?_, fun le => ?_⟩ <;>
          simp [accOpStep, VodozemacAccount.from_pickle, hk, h, GError.isOk,
            CoreErr.msg_ne_empty e]
  | outSess ik otk sd =>
    cases ac with
    | none =>
      exact ⟨by simp [accOpStep, VodozemacAccount.create_outbound_session,
        acc_notinit_ne], fun le => rfl⟩
    | some a =>
      by_cases h1 : validCurveKey ik
      · by_cases h2 : validCurveKey otk
        · refine ⟨?_, fun le => ?_⟩ <;>
            simp [accOpStep, VodozemacAccount.create_outbound_session,
              curveKeyFromB64, h1, h2]
        · refine ⟨?_, fun le => ?_⟩ <;>
            simp [accOpStep, VodozemacAccount.create_outbound_session,
              curveKeyFromB64, h1, h2, CoreErr.msg_ne_empty]
      · refine ⟨?_, fun le => ?_⟩ <;>
          simp [accOpStep, VodozemacAccount.create_outbound_session,
            curveKeyFromB64, h1, CoreErr.msg_ne_empty]
  | inSess ik mt c =>
    cases ac with
    | none =>
      exact ⟨by simp [accOpStep, VodozemacAccount.create_inbound_session,
        acc_notinit_ne, dictGet], fun le => rfl⟩
    | some a =>
      by_cases h1 : validCurveKey ik
      · cases h2 : coreCreateInbound a (keyDigest ik) mt c with
        | ok t =>
          refine ⟨?_, fun le => ?_⟩ <;>
            simp [accOpStep, VodozemacAccount.create_inbound_session,
              curveKeyFromB64, h1, h2, dictGet]
        | error e =>
          refine ⟨?_, fun le => ?_⟩ <;>
            simp [accOpStep, VodozemacAccount.create_inbound_session,
              curveKeyFromB64, h1, h2, dictGet, CoreErr.msg_ne_empty e]
      · refine ⟨?_, fun le => ?_⟩ <;>
          simp [accOpStep, VodozemacAccount.create_inbound_session,
            curveKeyFromB64, h1, dictGet, CoreErr.msg_ne_empty]

theorem sess_notinit_ne : ("Session not initialized" : String) ≠ "" := by decide

theorem sessOp_last_error_aux (S : VodozemacSession) (op : SessOp) :
    ((sessOpStep S op).1.last_error = "" ↔ (sessOpStep S op).2 = true) ∧
    (∀ le, (sessOpStep ⟨S.session, le⟩ op).1.last_error =
      (sessOpStep S op).1.last_error) := by
  obtain ⟨sc, le0⟩ := S
  cases op with
  | sid =>
    cases sc with
    | none =>
      exact ⟨by simp [sessOpStep, VodozemacSession.get_session_id, sess_notinit_ne],
        fun le => rfl⟩
    | some s =>
      exact ⟨by simp [sessOpStep, VodozemacSession.get_session_id], fun le => rfl⟩
  | smatch mt c =>
    cases sc with
    | none =>
      exact ⟨by simp [sessOpStep, VodozemacSession.session_matches, sess_notinit_ne],
        fun le => rfl⟩
    | some s =>
      exact ⟨by simp [sessOpStep, VodozemacSession.session_matches], fun le => rfl⟩
  | enc p =>
    cases sc with
    | none =>
      exact ⟨by simp [sessOpStep, VodozemacSession.encrypt, sess_notinit_ne],
        fun le => rfl⟩
    | some s =>
      exact ⟨by simp [sessOpStep, VodozemacSession.encrypt], fun le => rfl⟩
  | dec mt c =>
    cases sc with
    | none =>
      exact ⟨by simp [sessOpStep, VodozemacSession.decrypt, sess_notinit_ne, dictGet],
        fun le => rfl⟩
    | some s =>
      cases h : coreSessionDecrypt s mt c with
      | ok r =>
        refine ⟨?_, fun le => ?_⟩ <;>
          simp [sessOpStep, VodozemacSession.decrypt, h, dictGet]
      | error e =>
        refine ⟨?_, fun le => ?_⟩ <;>
          simp [sessOpStep, VodozemacSession.decrypt, h, dictGet,
            CoreErr.msg_ne_empty e]
  | pick k =>
    cases sc with
    | none =>
      exact ⟨by simp [sessOpStep, VodozemacSession.pickle, sess_notinit_ne],
        fun le => rfl⟩
    | some s =>
      by_cases hk : k.length ≠ 32
      · refine ⟨?_, fun le => ?_⟩ <;>
          simp [sessOpStep, VodozemacSession.pickle, hk, keylen_msg_ne]
      · have hk2 : k.length = 32 := by omega
        refine ⟨?_, fun le => ?_⟩ <;>
          simp [sessOpStep, VodozemacSession.pickle, hk, hk2]
  | unpick b k =>
    by_cases hk : k.length ≠ 32
    · refine ⟨?_, fun le => ?_⟩ <;>
        simp [sessOpStep, VodozemacSession.from_pickle, hk, keylen_msg_ne, GError.isOk]
    · cases h : coreSessionFromPickle b k with
      | ok s2 =>
        refine ⟨?_, fun le => ?_⟩ <;>
          simp [sessOpStep, VodozemacSession.from_pickle, hk, h, GError.isOk]
      | error e =>
        refine ⟨?_, fun le => ?_⟩ <;>
          simp [sessOpStep, VodozemacSession.from_pickle, hk, h, GError.isOk,
            CoreErr.msg_ne_empty e]

theorem grp_notinit_ne : ("Group session not initialized" : String) ≠ "" := by decide

theorem grpOp_last_error_aux (G : VodozemacGroupSession) (op : GrpOp) :
    ((grpOpStep G op).1.last_error = "" ↔ (grpOpStep G op).2 = true) ∧
    (∀ le, (grpOpStep ⟨G.session, le⟩ op).1.last_error =
      (grpOpStep G op).1.last_error) := by
  obtain ⟨gc, le0⟩ := G
  cases op with
  | init s =>
    exact ⟨by simp [grpOpStep, VodozemacGroupSession.initialize], fun le => rfl⟩
  | sid =>
    cases gc with
    | none =>
      exact ⟨by simp [grpOpStep, VodozemacGroupSession.get_session_id, grp_notinit_ne],
        fun le => rfl⟩
    | some g =>
      exact ⟨by simp [grpOpStep, VodozemacGroupSession.get_session_id], fun le => rfl⟩
  | enc p =>
    cases gc with
    | none =>
      exact ⟨by simp [grpOpStep, VodozemacGroupSession.encrypt, grp_notinit_ne],
        fun le => rfl⟩
    | some g =>
      exact ⟨by simp [grpOpStep, VodozemacGroupSession.encrypt], fun le => rfl⟩
  | skey =>
    cases gc with
    | none =>
      exact ⟨by simp [grpOpStep, VodozemacGroupSession.get_session_key,
        grp_notinit_ne], fun le => rfl⟩
    | some g =>
      exact ⟨by simp [grpOpStep, VodozemacGroupSession.get_session_key], fun le => rfl⟩
  | midx =>
    cases gc with
    | none =>
      exact ⟨by simp [grpOpStep, VodozemacGroupSession.get_message_index,
        grp_notinit_ne], fun le => rfl⟩
    | some g =>
      exact ⟨by simp [grpOpStep, VodozemacGroupSession.get_message_index],
        fun le => rfl⟩
  | pick k =>
    cases gc with
    | none =>
      exact ⟨by simp [grpOpStep, VodozemacGroupSession.pickle, grp_notinit_ne],
        fun le => rfl⟩
    | some g =>
      by_cases hk : k.length ≠ 32
      · refine ⟨?_, fun le => ?_⟩ <;>
          simp [grpOpStep, VodozemacGroupSession.pickle, hk, keylen_msg_ne]
      · have hk2 : k.length = 32 := by omega
        refine ⟨?_, fun le => ?_⟩ <;>
          simp [grpOpStep, VodozemacGroupSession.pickle, hk, hk2]
  | unpick b k =>
    by_cases hk : k.length ≠ 32
    · refine ⟨?_, fun le => ?_⟩ <;>
        simp [grpOpStep, VodozemacGroupSession.from_pickle, hk, keylen_msg_ne,
          GError.isOk]
    · cases h : coreGroupFromPickle b k with
      | ok g2 =>
        refine ⟨?_, fun le => ?_⟩ <;>
          simp [grpOpStep, VodozemacGroupSession.from_pickle, hk, h, GError.isOk]
      | error e =>
        refine ⟨?_, fun le => ?_⟩ <;>
          simp [grpOpStep, VodozemacGroupSession.from_pickle, hk, h, GError.isOk,
            CoreErr.msg_ne_empty e]

theorem inb_notinit_ne : ("Inbound group session not initialized" : String) ≠ "" := by
  decide

theorem inbOp_last_error_aux (S : VodozemacInboundGroupSession) (op : InbOp) :
    ((inbOpStep S op).1.last_error = "" ↔ (inbOpStep S op).2 = true) ∧
    (∀ le, (inbOpStep ⟨S.session, le⟩ op).1.last_error =
      (inbOpStep S op).1.last_error) := by
  obtain ⟨sc, le0⟩ := S
  cases op with
  | initSK sk =>
    cases h : sessionKeyFromB64 sk with
    | ok e =>
      refine ⟨?_, fun le => ?_⟩ <;>
        simp [inbOpStep, VodozemacInboundGroupSession.initialize_from_session_key, h,
          GError.isOk]
    | error e =>
      refine ⟨?_, fun le => ?_⟩ <;>
        simp [inbOpStep, VodozemacInboundGroupSession.initialize_from_session_key, h,
          GError.isOk, CoreErr.msg_ne_empty e]
  | imp ek =>
    cases h : exportedSessionKeyFromB64 ek with
    | ok e =>
      refine ⟨?_, fun le => ?_⟩ <;>
        simp [inbOpStep, VodozemacInboundGroupSession.import_session, h, GError.isOk]
    | error e =>
      refine ⟨?_, fun le => ?_⟩ <;>
        simp [inbOpStep, VodozemacInboundGroupSession.import_session, h, GError.isOk,
          CoreErr.msg_ne_empty e]
  | sid =>
    cases sc with
    | none =>
      exact ⟨by simp [inbOpStep, VodozemacInboundGroupSession.get_session_id,
        inb_notinit_ne], fun le => rfl⟩
    | some s =>
      exact ⟨by simp [inbOpStep, VodozemacInboundGroupSession.get_session_id],
        fun le => rfl⟩
  | dec c =>
    cases sc with
    | none =>
      exact ⟨by simp [inbOpStep, VodozemacInboundGroupSession.decrypt, inb_notinit_ne,
        dictGet], fun le => rfl⟩
    | some s =>
      cases h : coreInboundDecrypt s c with
      | ok r =>
        refine ⟨?_, fun le => ?_⟩ <;>
          simp [inbOpStep, VodozemacInboundGroupSession.decrypt, h, dictGet]
      | error e =>
        refine ⟨?_, fun le => ?_⟩ <;>
          simp [inbOpStep, VodozemacInboundGroupSession.decrypt, h, dictGet,
            CoreErr.msg_ne_empty e]
  | fki =>
    cases sc with
    | none =>
      exact ⟨by simp [inbOpStep, VodozemacInboundGroupSession.get_first_known_index,
        inb_notinit_ne], fun le => rfl⟩
    | some s =>
      exact ⟨by simp [inbOpStep, VodozemacInboundGroupSession.get_first_known_index],
        fun le => rfl⟩
  | exp i =>
    cases sc with
    | none =>
      exact ⟨by simp [inbOpStep, VodozemacInboundGroupSession.export_at_index,
        inb_notinit_ne, dictGet], fun le => rfl⟩
    | some s =>
      cases h : coreInboundExportAt s i.toNat with
      | ok ek =>
        refine ⟨?_, fun le => ?_⟩ <;>
          simp [inbOpStep, VodozemacInboundGroupSession.export_at_index, h, dictGet]
      | error e =>
        refine ⟨?_, fun le => ?_⟩ <;>
          simp [inbOpStep, VodozemacInboundGroupSession.export_at_index, h, dictGet,
            CoreErr.msg_ne_empty e]
  | pick k =>
    cases sc with
    | none =>
      exact ⟨by simp [inbOpStep, VodozemacInboundGroupSession.pickle, inb_notinit_ne],
        fun le => rfl⟩
    | some s =>
      by_cases hk : k.length ≠ 32
      · refine ⟨?_, fun le => ?_⟩ <;>
          simp [inbOpStep, VodozemacInboundGroupSession.pickle, hk, keylen_msg_ne]
      · have hk2 : k.length = 32 := by omega
        refine ⟨?_, fun le => ?_⟩ <;>
          simp [inbOpStep, VodozemacInboundGroupSession.pickle, hk, hk2]
  | unpick b k =>
    by_cases hk : k.length ≠ 32
    · refine ⟨?_, fun le => ?_⟩ <;>
        simp [inbOpStep, VodozemacInboundGroupSession.from_pickle, hk, keylen_msg_ne,
          GError.isOk]
    · cases h : coreInboundFromPickle b k with
      | ok s2 =>
        refine ⟨?_, fun le => ?_⟩ <;>
          simp [inbOpStep, VodozemacInboundGroupSession.from_pickle, hk, h,
            GError.isOk]
      | error e =>
        refine ⟨?_, fun le => ?_⟩ <;>
          simp [inbOpStep, VodozemacInboundGroupSession.from_pickle, hk, h,
            GError.isOk, CoreErr.msg_ne_empty e]

/-- C9: for every entity and every operation, the last-error slot after the
call is empty exactly when the call succeeded (hence non-empty on every
failure), and its new value does not depend on the value it held before the
call: every call overwrites the slot and no stale error survives a later
successful call. -/

theorem last_error_slot_discipline :
    (∀ (A : VodozemacAccount) (op : AccOp),
      ((accOpStep A op).1.last_error = "" ↔ (accOpStep A op).2 = true) ∧
      (∀ le, (accOpStep ⟨A.account, le⟩ op).1.last_error =
        (accOpStep A op).1.last_error)) ∧
    (∀ (S : VodozemacSession) (op : SessOp),
      ((sessOpStep S op).1.last_error = "" ↔ (sessOpStep S op).2 = true) ∧
      (∀ le, (sessOpStep ⟨S.session, le⟩ op).1.last_error =
        (sessOpStep S op).1.last_error)) ∧
    (∀ (G : VodozemacGroupSession) (op : GrpOp),
      ((grpOpStep G op).1.last_error = "" ↔ (grpOpStep G op).2 = true) ∧
      (∀ le, (grpOpStep ⟨G.session, le⟩ op).1.last_error =
        (grpOpStep G op).1.last_error)) ∧
    (∀ (S : VodozemacInboundGroupSession) (op : InbOp),
      ((inbOpStep S op).1.last_error = "" ↔ (inbOpStep S op).2 = true) ∧
      (∀ le, (inbOpStep ⟨S.session, le⟩ op).1.last_error =
        (inbOpStep S op).1.last_error)) :=
  ⟨accOp_last_error_aux, sessOp_last_error_aux, grpOp_last_error_aux,
   inbOp_last_error_aux⟩

/-- C9 witness: a successful call on an account holding a stale error clears
the slot. -/

theorem last_error_slot_discipline_witness :
    (accOpStep ⟨some (newAccount 0), "stale"⟩ .idKeys).1.last_error = "" ∧
    (accOpStep ⟨some (newAccount 0), "stale"⟩ .idKeys).2 = true :=
  ⟨(last_error_slot_discipline.1 ⟨some (newAccount 0), "stale"⟩ .idKeys).1.mpr rfl,
   rfl⟩

/-! ### Claim C1: pickle round-trip reproduces behaviour. -/

/-- C1: for every initialized entity E of each of the four types and every
32-byte key, feeding the blob returned by pickle back into from_pickle (on
any wrapper object) succeeds and restores exactly the pickled core state, so
every subsequent sequence of observable operations (encrypt, decrypt,
session id, message index, key snapshots) produces the same outputs as it
would on E.  Stated against the spec-modelled core pickle codec. -/

theorem pickle_roundtrip_behavioral :
    (∀ (E F : VodozemacAccount) (a : OlmAccount) (k : List Nat) (ops : List AccObs),
      E.account = some a → k.length = 32 →
      (F.from_pickle (E.pickle k).2 k).2 = .ok ∧
      (F.from_pickle (E.pickle k).2 k).1.account = E.account ∧
      accObsRun (F.from_pickle (E.pickle k).2 k).1 ops = accObsRun E ops) ∧
    (∀ (E F : VodozemacSession) (s : OlmSession) (k : List Nat) (ops : List SessObs),
      E.session = some s → k.length = 32 →
      (F.from_pickle (E.pickle k).2 k).2 = .ok ∧
      (F.from_pickle (E.pickle k).2 k).1.session = E.session ∧
      sessObsRun (F.from_pickle (E.pickle k).2 k).1 ops = sessObsRun E ops) ∧
    (∀ (E F : VodozemacGroupSession) (g : GroupSession) (k : List Nat)
        (ops : List GrpObs),
      E.session = some g → k.length = 32 →
      (F.from_pickle (E.pickle k).2 k).2 = .ok ∧
      (F.from_pickle (E.pickle k).2 k).1.session = E.session ∧
      grpObsTrace (F.from_pickle (E.pickle k).2 k).1 ops = grpObsTrace E ops) ∧
    (∀ (E F : VodozemacInboundGroupSession) (s : InboundGroupSession) (k : List Nat)
        (ops : List InbObs),
      E.session = some s → k.length = 32 →
      (F.from_pickle (E.pickle k).2 k).2 = .ok ∧
      (F.from_pickle (E.pickle k).2 k).1.session = E.session ∧
      inbObsRun (F.from_pickle (E.pickle k).2 k).1 ops = inbObsRun E ops) := by
  refine ⟨?_, ?_, ?_, ?_⟩
  · intro E F a k ops h1 h2
    obtain ⟨ac, le⟩ := E
    subst h1
    have hp : ((⟨some a, le⟩ : VodozemacAccount).pickle k).2 = .acc a k := by
      simp [VodozemacAccount.pickle, h2, coreAccountPickle]
    have hf : F.from_pickle (.acc a k) k = (⟨some a, ""⟩, .ok) := by
      simp [VodozemacAccount.from_pickle, h2, coreAccountFromPickle]
    rw [hp, hf]
    exact ⟨rfl, rfl, accObsRun_last_error_irrel ops (some a) "" le⟩
  · intro E F s k ops h1 h2
    obtain ⟨sc, le⟩ := E
    subst h1
    have hp : ((⟨some s, le⟩ : VodozemacSession).pickle k).2 = .sess s k := by
      simp [VodozemacSession.pickle, h2, coreSessionPickle]
    have hf : F.from_pickle (.sess s k) k = (⟨some s, ""⟩, .ok) := by
      simp [VodozemacSession.from_pickle, h2, coreSessionFromPickle]
    rw [hp, hf]
    exact ⟨rfl, rfl, sessObsRun_last_error_irrel ops (some s) "" le⟩
  · intro E F g k ops h1 h2
    obtain ⟨gc, le⟩ := E
    subst h1
    have hp : ((⟨some g, le⟩ : VodozemacGroupSession).pickle k).2 = .grp g k := by
      simp [VodozemacGroupSession.pickle, h2, coreGroupPickle]
    have hf : F.from_pickle (.grp g k) k = (⟨some g, ""⟩, .ok) := by
      simp [VodozemacGroupSession.from_pickle, h2, coreGroupFromPickle]
    rw [hp, hf]
    exact ⟨rfl, rfl, grpObsTrace_last_error_irrel ops (some g) "" le⟩
  · intro E F s k ops h1 h2
    obtain ⟨sc, le⟩ := E
    subst h1
    have hp : ((⟨some s, le⟩ : VodozemacInboundGroupSession).pickle k).2 =
        .inb s k := by
      simp [VodozemacInboundGroupSession.pickle, h2, coreInboundPickle]
    have hf : F.from_pickle (.inb s k) k = (⟨some s, ""⟩, .ok) := by
      simp [VodozemacInboundGroupSession.from_pickle, h2, coreInboundFromPickle]
    rw [hp, hf]
    exact ⟨rfl, rfl, inbObsRun_last_error_irrel ops (some s) "" le⟩

/-- C1 witness: the round-trip applied at concrete entities of all four
types under the all-zero 32-byte key. -/

theorem pickle_roundtrip_behavioral_witness :
    (⟨some (newAccount 0), "x"⟩ : VodozemacAccount).account = some (newAccount 0) ∧
    (List.replicate 32 (0 : Nat)).length = 32 ∧
    accObsRun ((VodozemacAccount.from_pickle ⟨none, ""⟩
        ((VodozemacAccount.pickle ⟨some (newAccount 0), "x"⟩
          (List.replicate 32 0)).2) (List.replicate 32 0)).1) [.aIdKeys] =
      accObsRun ⟨some (newAccount 0), "x"⟩ [.aIdKeys] ∧
    (VodozemacSession.from_pickle ⟨none, ""⟩
        ((VodozemacSession.pickle ⟨some ⟨7, 5, 0, 9, 0⟩, ""⟩
          (List.replicate 32 0)).2) (List.replicate 32 0)).2 = .ok ∧
    (VodozemacGroupSession.from_pickle ⟨none, ""⟩
        ((VodozemacGroupSession.pickle ⟨some (newGroupSession 1), "y"⟩
          (List.replicate 32 0)).2) (List.replicate 32 0)).2 = .ok ∧
    (VodozemacInboundGroupSession.from_pickle ⟨none, ""⟩
        ((VodozemacInboundGroupSession.pickle ⟨some ⟨3, 0, 0, 4⟩, ""⟩
          (List.replicate 32 0)).2) (List.replicate 32 0)).2 = .ok :=
  ⟨rfl, by decide,
   (pickle_roundtrip_behavioral.1 ⟨some (newAccount 0), "x"⟩ ⟨none, ""⟩
      (newAccount 0) (List.replicate 32 0) [.aIdKeys] rfl (by decide)).2.2,
   (pickle_roundtrip_behavioral.2.1 ⟨some ⟨7, 5, 0, 9, 0⟩, ""⟩ ⟨none, ""⟩
      ⟨7, 5, 0, 9, 0⟩ (List.replicate 32 0) [] rfl (by decide)).1,
   (pickle_roundtrip_behavioral.2.2.1 ⟨some (newGroupSession 1), "y"⟩ ⟨none, ""⟩
      (newGroupSession 1) (List.replicate 32 0) [] rfl (by decide)).1,
   (pickle_roundtrip_behavioral.2.2.2 ⟨some ⟨3, 0, 0, 4⟩, ""⟩ ⟨none, ""⟩
      ⟨3, 0, 0, 4⟩ (List.replicate 32 0) [] rfl (by decide)).1⟩

/-! ### Claim C3: tamper rejection on pairwise decrypt. -/

theorem parseEnvelope_mk (k i pn : Nat) :
    parseEnvelope (natBits k ++ (natBits i ++ natBits pn)) = some (k, i, pn) := by
  have h3 : parseNat (natBits pn) = some (pn, []) := by
    simpa using parseNat_natBits pn []
  simp [parseEnvelope, parseNat_natBits, h3]

theorem coreSessionDecrypt_tampered (s : OlmSession) (raw : List Bool) (j : Nat)
    (hj : j < (xorAll raw :: raw).length) :
    coreSessionDecrypt s 1 (flipBit j (xorAll raw :: raw)) =
      .error .authenticationFailure := by
  cases j with
  | zero =>
    have hfl : flipBit 0 (xorAll raw :: raw) = (!(xorAll raw)) :: raw := rfl
    rw [hfl]
    simp only [coreSessionDecrypt]
    cases h : xorAll raw <;> simp [h]
  | succ j =>
    have hj2 : j < raw.length := by
      simpa using Nat.lt_of_succ_lt_succ hj
    have hfl : flipBit (j + 1) (xorAll raw :: raw) = xorAll raw :: flipBit j raw := rfl
    rw [hfl]
    simp only [coreSessionDecrypt]
    rw [xorAll_flipBit raw j hj2]
    cases h : xorAll raw <;> simp [h]

theorem coreSessionDecrypt_valid (snd rcv : OlmSession) (p : String)
    (hk : rcv.recvKey = snd.sendKey) (hi : rcv.recvIdx = snd.sendIdx) :
    coreSessionDecrypt rcv 1 (mkEnvelope snd.sendKey snd.sendIdx (strToNat p)) =
      .ok (p, { rcv with recvKey := kdf rcv.recvKey, recvIdx := rcv.recvIdx + 1 }) := by
  simp [coreSessionDecrypt, mkEnvelope, parseEnvelope_mk, hk, hi, natToStr_strToNat]

/-- C3: for any established receiving session whose receiving chain matches
the sending chain of the peer, flipping any single bit of the envelope the
peer encrypt produced makes decrypt fail with the AuthenticationFailure
error kind while the receiver ratchet state is not mutated, and decrypting
the original untampered envelope afterwards still succeeds and returns the
original plaintext.  Stated against the spec-modelled core. -/

theorem tampered_envelope_rejected_state_preserved
    (snd rcv : OlmSession) (R : VodozemacSession) (p : String) (i : Nat)
    (hR : R.session = some rcv)
    (hk : rcv.recvKey = snd.sendKey) (hi : rcv.recvIdx = snd.sendIdx)
    (hlen : i < ((coreSessionEncrypt snd p).1.2).length) :
    (R.decrypt (coreSessionEncrypt snd p).1.1
        (flipBit i (coreSessionEncrypt snd p).1.2)).1.session = R.session ∧
    (R.decrypt (coreSessionEncrypt snd p).1.1
        (flipBit i (coreSessionEncrypt snd p).1.2)).1.last_error =
      CoreErr.msg .authenticationFailure ∧
    dictGet (R.decrypt (coreSessionEncrypt snd p).1.1
        (flipBit i (coreSessionEncrypt snd p).1.2)).2 "success" =
      some (.vbool false) ∧
    dictGet (R.decrypt (coreSessionEncrypt snd p).1.1
        (flipBit i (coreSessionEncrypt snd p).1.2)).2 "error" =
      some (.vstr (CoreErr.msg .authenticationFailure)) ∧
    dictGet (((R.decrypt (coreSessionEncrypt snd p).1.1
          (flipBit i (coreSessionEncrypt snd p).1.2)).1).decrypt
        (coreSessionEncrypt snd p).1.1 (coreSessionEncrypt snd p).1.2).2 "success" =
      some (.vbool true) ∧
    dictGet (((R.decrypt (coreSessionEncrypt snd p).1.1
          (flipBit i (coreSessionEncrypt snd p).1.2)).1).decrypt
        (coreSessionEncrypt snd p).1.1 (coreSessionEncrypt snd p).1.2).2 "plaintext" =
      some (.vstr p) := by
  obtain ⟨sc, le⟩ := R
  subst hR
  have h1 : coreSessionDecrypt rcv 1
      (flipBit i (mkEnvelope snd.sendKey snd.sendIdx (strToNat p))) =
      .error .authenticationFailure :=
    coreSessionDecrypt_tampered rcv
      (natBits snd.sendKey ++ natBits snd.sendIdx ++ natBits (strToNat p)) i hlen
  have h2 : coreSessionDecrypt rcv 1
      (mkEnvelope snd.sendKey snd.sendIdx (strToNat p)) =
      .ok (p, { rcv with recvKey := kdf rcv.recvKey, recvIdx := rcv.recvIdx + 1 }) :=
    coreSessionDecrypt_valid snd rcv p hk hi
  refine ⟨?_, ?_, ?_, ?_, ?_, ?_⟩ <;>
    simp [VodozemacSession.decrypt, coreSessionEncrypt, h1, h2, dictGet]

/-- C3 witness: tamper rejection applied to a concrete matched sender and
receiver pair, plaintext "a", with bit 0 flipped. -/

theorem tampered_envelope_rejected_state_preserved_witness :
    ((⟨some ⟨0, 0, 0, 5, 0⟩, ""⟩ : VodozemacSession).session = some ⟨0, 0, 0, 5, 0⟩ ∧
      (⟨0, 0, 0, 5, 0⟩ : OlmSession).recvKey = (⟨0, 5, 0, 0, 0⟩ : OlmSession).sendKey ∧
      0 < ((coreSessionEncrypt ⟨0, 5, 0, 0, 0⟩ "a").1.2).length) ∧
    dictGet (((⟨some ⟨0, 0, 0, 5, 0⟩, ""⟩ : VodozemacSession).decrypt
        (coreSessionEncrypt ⟨0, 5, 0, 0, 0⟩ "a").1.1
        (flipBit 0 (coreSessionEncrypt ⟨0, 5, 0, 0, 0⟩ "a").1.2)).1.decrypt
        (coreSessionEncrypt ⟨0, 5, 0, 0, 0⟩ "a").1.1
        (coreSessionEncrypt ⟨0, 5, 0, 0, 0⟩ "a").1.2).2 "plaintext" =
      some (.vstr "a") ∧
    ((⟨some ⟨0, 0, 0, 5, 0⟩, ""⟩ : VodozemacSession).decrypt
        (coreSessionEncrypt ⟨0, 5, 0, 0, 0⟩ "a").1.1
        (flipBit 0 (coreSessionEncrypt ⟨0, 5, 0, 0, 0⟩ "a").1.2)).1.session =
      (⟨some ⟨0, 0, 0, 5, 0⟩, ""⟩ : VodozemacSession).session :=
  ⟨⟨rfl, rfl, by decide⟩,
   (tampered_envelope_rejected_state_preserved ⟨0, 5, 0, 0, 0⟩ ⟨0, 0, 0, 5, 0⟩
      ⟨some ⟨0, 0, 0, 5, 0⟩, ""⟩ "a" 0 rfl rfl rfl (by decide)).2.2.2.2.2,
   (tampered_envelope_rejected_state_preserved ⟨0, 5, 0, 0, 0⟩ ⟨0, 0, 0, 5, 0⟩
      ⟨some ⟨0, 0, 0, 5, 0⟩, ""⟩ "a" 0 rfl rfl rfl (by decide)).1⟩
